import Mathlib

/-!
Verification development for the WakeUp hand-interpretation engine.

The engine (interpretation module plus the per-variant temporal smoothing in
the app shell) is translated here as a shallow embedding.  JavaScript numbers
are modelled as rationals; the transcendental / irrational primitives of the
`Math` object (`exp`, `atan2`, `acos`, `hypot`, `sqrt`, `PI`) are abstracted
into a `MathOps` record so that every definition stays computable, and the
theorems take as hypotheses exactly the elementary facts about those
primitives that the proofs need (for example that `exp` is positive).
JavaScript typed-array reads that are always in range in the modelled code
paths are translated with `List.getD`; the out-of-range fallback value is
only reached where the source itself falls back to `0` via `??`.
-/

set_option maxHeartbeats 1600000
set_option maxRecDepth 10000

/-- Abstract interface for the numeric primitives of the JS `Math` object that
have no exact rational implementation.  Each theorem states the properties of
these primitives it relies on as explicit hypotheses. -/
structure MathOps where
  exp : ℚ → ℚ
  atan2 : ℚ → ℚ → ℚ
  acos : ℚ → ℚ
  hypot2 : ℚ → ℚ → ℚ
  hypot3 : ℚ → ℚ → ℚ → ℚ
  sqrt : ℚ → ℚ
  pi : ℚ

/-- A sample instantiation of `MathOps`, used by the concrete witness
computations.  `hypot2` agrees with the Euclidean norm whenever one of its
arguments is `0`, which covers every evaluation the witnesses perform. -/
def sampleOps : MathOps where
  exp := fun _ => 1
  atan2 := fun _ _ => 0
  acos := fun _ => 0
  hypot2 := fun a b => |a| + |b|
  hypot3 := fun a b c => |a| + |b| + |c|
  sqrt := fun _ => 0
  pi := 0

-- ---------------------------------------------------------------------------
-- Data model (interfaces of the interpretation module)
-- ---------------------------------------------------------------------------

structure Anchor where
  xCenter : ℚ
  yCenter : ℚ
  width : ℚ
  height : ℚ
  deriving DecidableEq, Repr

/-- `rawBoxes` has intended shape `[numAnchors, 18]`, `rawScores` shape
`[numAnchors, 1]`; both `Float32Array`s are modelled as rational lists. -/
structure MLRawDetectorOutput where
  rawBoxes : List ℚ
  rawScores : List ℚ
  deriving DecidableEq, Repr

inductive Handedness where
  | Left
  | Right
  deriving DecidableEq, Repr

structure Point2D where
  x : ℚ
  y : ℚ
  deriving DecidableEq, Repr

structure Landmark3D where
  x : ℚ
  y : ℚ
  z : ℚ
  deriving DecidableEq, Repr

structure MLRawLandmarksOutput where
  landmarks : List ℚ
  handedness : Handedness
  handednessScore : ℚ
  presenceScore : Option ℚ := none
  visibility : Option (List ℚ) := none
  landmarkScore : Option ℚ := none
  deriving DecidableEq, Repr

structure FrameMeta where
  frameWidth : ℚ
  frameHeight : ℚ
  modelInputWidth : ℚ
  modelInputHeight : ℚ
  frameId : Option ℚ := none
  deriving DecidableEq, Repr

structure DetectionBox where
  id : ℕ
  score : ℚ
  cx : ℚ
  cy : ℚ
  w : ℚ
  h : ℚ
  rotation : ℚ
  palmKeypoints : List Point2D
  deriving DecidableEq, Repr

structure DetectionBoxOnFrame extends DetectionBox where
  cxPx : ℚ
  cyPx : ℚ
  wPx : ℚ
  hPx : ℚ
  xMin : ℚ
  yMin : ℚ
  xMax : ℚ
  yMax : ℚ
  palmKeypointsPx : List Point2D
  deriving DecidableEq, Repr

/-- Triple of rationals, modelling the `[number, number, number]` vectors. -/
structure Vec3 where
  x : ℚ
  y : ℚ
  z : ℚ
  deriving DecidableEq, Repr

structure HandOrientation where
  palmNormal : Vec3
  fingerDirection : Vec3
  yaw : ℚ
  pitch : ℚ
  roll : ℚ
  deriving DecidableEq, Repr

inductive FingerName where
  | Thumb
  | Index
  | Middle
  | Ring
  | Pinky
  deriving DecidableEq, Repr

inductive FingerState where
  | Open
  | Closed
  | Pointing
  | Unknown
  deriving DecidableEq, Repr

/-- `Record<FingerName, FingerState>` with its five fixed keys. -/
structure FingerStates where
  Thumb : FingerState
  Index : FingerState
  Middle : FingerState
  Ring : FingerState
  Pinky : FingerState
  deriving DecidableEq, Repr

def FingerStates.get (fs : FingerStates) : FingerName → FingerState
  | FingerName.Thumb => fs.Thumb
  | FingerName.Index => fs.Index
  | FingerName.Middle => fs.Middle
  | FingerName.Ring => fs.Ring
  | FingerName.Pinky => fs.Pinky

structure HandPose where
  fingers : FingerStates
  isPinching : Bool
  pinchStrength : ℚ
  spread : ℚ
  deriving DecidableEq, Repr

structure SizeWH where
  w : ℚ
  h : ℚ
  deriving DecidableEq, Repr

structure HandSpatialInfo where
  center : Point2D
  normalizedCenter : Point2D
  size : SizeWH
  depthApprox : ℚ
  isNearCenter : Bool
  deriving DecidableEq, Repr

structure HandState where
  id : String
  handedness : Handedness
  handednessScore : ℚ
  qualityScore : ℚ
  detectionBox : DetectionBoxOnFrame
  landmarks : List Landmark3D
  orientation : HandOrientation
  pose : HandPose
  spatial : HandSpatialInfo
  deriving DecidableEq, Repr

inductive InterHandRelationType where
  | HandshakeCandidate
  | HandsClose
  | Crossing
  | Unknown
  deriving DecidableEq, Repr

structure InterHandRelation where
  handIdA : String
  handIdB : String
  type : InterHandRelationType
  distancePx : ℚ
  confidence : ℚ
  deriving DecidableEq, Repr

structure SceneRawMeta where
  numDetectionsBeforeNMS : ℕ
  processingTimeMs : Option ℚ := none
  frameWidth : ℚ
  frameHeight : ℚ
  deriving DecidableEq, Repr

structure SceneInterpretation where
  frameId : ℚ
  hands : List HandState
  interHandRelations : List InterHandRelation
  rawMeta : SceneRawMeta
  deriving DecidableEq, Repr

structure DetectionParams where
  scoreThreshold : ℚ
  maxHands : ℚ
  iouThreshold : ℚ
  roiExpansion : ℚ
  deriving DecidableEq, Repr

/-- `Partial<DetectionParams>`: every field optional. -/
structure DetectionParamsOverrides where
  scoreThreshold : Option ℚ := none
  maxHands : Option ℚ := none
  iouThreshold : Option ℚ := none
  roiExpansion : Option ℚ := none
  deriving DecidableEq, Repr

structure PreparedDetections where
  boxes : List DetectionBox
  boxesOnFrame : List DetectionBoxOnFrame
  roiBoxesOnFrame : List DetectionBoxOnFrame
  numDetectionsBeforeNMS : ℕ
  deriving DecidableEq, Repr

structure InterpretFrameOptions where
  precomputed : Option PreparedDetections := none
  detectionParams : Option DetectionParamsOverrides := none
  includePerformanceMetrics : Option Bool := none
  deriving DecidableEq, Repr

-- ---------------------------------------------------------------------------
-- Module constants
-- ---------------------------------------------------------------------------

def PALM_KEYPOINT_COUNT : ℕ := 7

def DETECTION_VALUES_PER_ANCHOR : ℕ := 18

def DEFAULT_DETECTION_PARAMS : DetectionParams :=
  { scoreThreshold := 0.55
    maxHands := 2
    iouThreshold := 0.3
    roiExpansion := 1.25 }

def DETECTOR_SCALE : ℚ := 192

def DEFAULT_FRAME_ID : ℚ := 0

def EPSILON : ℚ := 1 / 1000000

-- ---------------------------------------------------------------------------
-- Anchor grid generator
-- ---------------------------------------------------------------------------

structure AnchorGeneratorOptions where
  inputWidth : ℚ
  inputHeight : ℚ
  minScale : ℚ
  maxScale : ℚ
  strides : List ℕ
  anchorOffsetX : ℚ
  anchorOffsetY : ℚ
  aspectRatios : List ℚ
  interpolatedScaleAspect : ℚ
  fixedAnchorSize : Bool
  deriving DecidableEq, Repr

/-- The nested anchor loops of `createPalmDetectionAnchors`, factored over the
options record they read (the source inlines the options literal).  The for
loops over grid cells become binds over `List.range`; `Math.ceil` on the exact
rational quotient is `Int.ceil`. -/
def anchorsFromOptions (ops : MathOps) (options : AnchorGeneratorOptions) : List Anchor :=
  let numLayers := options.strides.length
  (List.range numLayers).flatMap fun layer =>
    let stride := options.strides.getD layer 0
    let fmHeight := (Int.ceil (options.inputHeight / (stride : ℚ))).toNat
    let fmWidth := (Int.ceil (options.inputWidth / (stride : ℚ))).toNat
    let scale := options.minScale +
      (options.maxScale - options.minScale) * (layer : ℚ) / (max 1 (numLayers - 1) : ℕ)
    let scaleNext :=
      if layer = numLayers - 1 then 1
      else options.minScale +
        (options.maxScale - options.minScale) * ((layer : ℚ) + 1) / (max 1 (numLayers - 1) : ℕ)
    (List.range fmHeight).flatMap fun y =>
      (List.range fmWidth).flatMap fun x =>
        let xCenter := ((x : ℚ) + options.anchorOffsetX) / (fmWidth : ℚ)
        let yCenter := ((y : ℚ) + options.anchorOffsetY) / (fmHeight : ℚ)
        (options.aspectRatios.map fun ar =>
          let ratioSqrt := ops.sqrt ar
          let anchorHeight := if options.fixedAnchorSize then 1 else scale / ratioSqrt
          let anchorWidth := if options.fixedAnchorSize then 1 else scale * ratioSqrt
          ({ xCenter := xCenter, yCenter := yCenter
             width := anchorWidth, height := anchorHeight } : Anchor)) ++
        (if 0 < options.interpolatedScaleAspect then
          let ratioSqrt := ops.sqrt options.interpolatedScaleAspect
          let interpolatedScale := ops.sqrt (scale * scaleNext)
          let anchorHeight := if options.fixedAnchorSize then 1 else interpolatedScale / ratioSqrt
          let anchorWidth := if options.fixedAnchorSize then 1 else interpolatedScale * ratioSqrt
          [({ xCenter := xCenter, yCenter := yCenter
              width := anchorWidth, height := anchorHeight } : Anchor)]
        else [])

/-- The fixed option literal of `createPalmDetectionAnchors`. -/
def palmAnchorOptions : AnchorGeneratorOptions :=
  { inputWidth := 192
    inputHeight := 192
    minScale := 0.1484375
    maxScale := 0.75
    strides := [8, 16, 16, 16]
    anchorOffsetX := 0.5
    anchorOffsetY := 0.5
    aspectRatios := [1]
    interpolatedScaleAspect := 1
    fixedAnchorSize := true }

def createPalmDetectionAnchors (ops : MathOps) : List Anchor :=
  anchorsFromOptions ops palmAnchorOptions

-- ---------------------------------------------------------------------------
-- Detection decoding
-- ---------------------------------------------------------------------------

def mergeDetectionParams (overrides : Option DetectionParamsOverrides) : DetectionParams :=
  { scoreThreshold :=
      ((overrides.bind (·.scoreThreshold)).getD DEFAULT_DETECTION_PARAMS.scoreThreshold)
    maxHands := ((overrides.bind (·.maxHands)).getD DEFAULT_DETECTION_PARAMS.maxHands)
    iouThreshold := ((overrides.bind (·.iouThreshold)).getD DEFAULT_DETECTION_PARAMS.iouThreshold)
    roiExpansion := ((overrides.bind (·.roiExpansion)).getD DEFAULT_DETECTION_PARAMS.roiExpansion) }

def DetectionParams.toOverrides (p : DetectionParams) : DetectionParamsOverrides :=
  { scoreThreshold := some p.scoreThreshold
    maxHands := some p.maxHands
    iouThreshold := some p.iouThreshold
    roiExpansion := some p.roiExpansion }

/-- Decoding of the box and keypoints of anchor `i`
(the loop body of `decodeDetectionsInternal`). -/
def decodeOneBox (ops : MathOps) (detectorOutputInner : MLRawDetectorOutput)
    (anchorsInner : List Anchor) (i : ℕ) : DetectionBox :=
  let rawScore := detectorOutputInner.rawScores.getD i 0
  let score :=
    if 0 ≤ rawScore then 1 / (1 + ops.exp (-rawScore))
    else ops.exp rawScore / (1 + ops.exp rawScore)
  let boxOffset := i * DETECTION_VALUES_PER_ANCHOR
  let anchor := anchorsInner.getD i { xCenter := 0, yCenter := 0, width := 0, height := 0 }
  let yCenter := detectorOutputInner.rawBoxes.getD (boxOffset + 0) 0
  let xCenter := detectorOutputInner.rawBoxes.getD (boxOffset + 1) 0
  let h := detectorOutputInner.rawBoxes.getD (boxOffset + 2) 0
  let w := detectorOutputInner.rawBoxes.getD (boxOffset + 3) 0
  let cx := anchor.xCenter + (xCenter / DETECTOR_SCALE) * anchor.width
  let cy := anchor.yCenter + (yCenter / DETECTOR_SCALE) * anchor.height
  let decodedW := anchor.width * ops.exp (w / DETECTOR_SCALE)
  let decodedH := anchor.height * ops.exp (h / DETECTOR_SCALE)
  let palmKeypoints := (List.range PALM_KEYPOINT_COUNT).map fun k =>
    let kpX := detectorOutputInner.rawBoxes.getD (boxOffset + 4 + k * 2 + 1) 0
    let kpY := detectorOutputInner.rawBoxes.getD (boxOffset + 4 + k * 2) 0
    ({ x := anchor.xCenter + (kpX / DETECTOR_SCALE) * anchor.width
       y := anchor.yCenter + (kpY / DETECTOR_SCALE) * anchor.height } : Point2D)
  let rotation :=
    if 2 ≤ palmKeypoints.length then
      ops.atan2
        ((palmKeypoints.getD (palmKeypoints.length - 1) { x := 0, y := 0 }).y -
          (palmKeypoints.getD 0 { x := 0, y := 0 }).y)
        ((palmKeypoints.getD (palmKeypoints.length - 1) { x := 0, y := 0 }).x -
          (palmKeypoints.getD 0 { x := 0, y := 0 }).x)
    else 0
  { id := i
    score := score
    cx := min (max cx 0) 1
    cy := min (max cy 0) 1
    w := min (max decodedW 0) 1
    h := min (max decodedH 0) 1
    rotation := rotation
    palmKeypoints := palmKeypoints }

/-- `decodeDetectionsInternal`: one `DetectionBox` per anchor covered by both
the regression buffer (18 values each, `Math.floor` of the length ratio) and
the anchor list. -/
def decodeDetectionsInternal (ops : MathOps) (detectorOutputInner : MLRawDetectorOutput)
    (anchorsInner : List Anchor) : List DetectionBox :=
  let anchorsCount :=
    min (detectorOutputInner.rawBoxes.length / DETECTION_VALUES_PER_ANCHOR) anchorsInner.length
  (List.range anchorsCount).map (decodeOneBox ops detectorOutputInner anchorsInner)

-- ---------------------------------------------------------------------------
-- Frame / ROI mapping helpers
-- ---------------------------------------------------------------------------

def mapBoxToFrame (box : DetectionBox) (meta : FrameMeta) : DetectionBoxOnFrame :=
  let cxPx := box.cx * meta.frameWidth
  let cyPx := box.cy * meta.frameHeight
  let wPx := box.w * meta.frameWidth
  let hPx := box.h * meta.frameHeight
  { box with
    cxPx := cxPx
    cyPx := cyPx
    wPx := wPx
    hPx := hPx
    xMin := cxPx - wPx / 2
    yMin := cyPx - hPx / 2
    xMax := cxPx + wPx / 2
    yMax := cyPx + hPx / 2
    palmKeypointsPx := box.palmKeypoints.map fun kp =>
      ({ x := kp.x * meta.frameWidth, y := kp.y * meta.frameHeight } : Point2D) }

def expandRoiForLandmarks (box : DetectionBoxOnFrame) (meta : FrameMeta)
    (expansion : ℚ) : DetectionBoxOnFrame :=
  let size := max box.wPx box.hPx * expansion
  let half := size / 2
  let cx := box.cxPx
  let cy := box.cyPx
  let xMin := min (max (cx - half) 0) (meta.frameWidth - 1)
  let yMin := min (max (cy - half) 0) (meta.frameHeight - 1)
  let xMax := min (max (cx + half) 0) (meta.frameWidth - 1)
  let yMax := min (max (cy + half) 0) (meta.frameHeight - 1)
  { box with
    wPx := xMax - xMin
    hPx := yMax - yMin
    xMin := xMin
    yMin := yMin
    xMax := xMax
    yMax := yMax }

/-- Landmark positions are always read at indices `i*3 .. i*3+2` for
`i < 21`; for the intended 63-value buffer every read is in range. -/
def mapLandmarksToFrame (raw : MLRawLandmarksOutput)
    (roi : DetectionBoxOnFrame) : List Landmark3D :=
  (List.range 21).map fun i =>
    let base := i * 3
    let xNorm := raw.landmarks.getD (base + 0) 0
    let yNorm := raw.landmarks.getD (base + 1) 0
    let zRel := raw.landmarks.getD (base + 2) 0
    let limitedX := min (max xNorm (-0.5)) 1.5
    let limitedY := min (max yNorm (-0.5)) 1.5
    { x := roi.xMin + limitedX * roi.wPx
      y := roi.yMin + limitedY * roi.hPx
      z := zRel }

-- ---------------------------------------------------------------------------
-- Suppressor (greedy NMS) of prepareDetections
-- ---------------------------------------------------------------------------

/-- Axis-aligned intersection over union (`intersectionOverUnionLocal`). -/
def intersectionOverUnionLocal (a b : DetectionBox) : ℚ :=
  let axMin := a.cx - a.w / 2
  let ayMin := a.cy - a.h / 2
  let axMax := a.cx + a.w / 2
  let ayMax := a.cy + a.h / 2
  let bxMin := b.cx - b.w / 2
  let byMin := b.cy - b.h / 2
  let bxMax := b.cx + b.w / 2
  let byMax := b.cy + b.h / 2
  let interXMin := max axMin bxMin
  let interYMin := max ayMin byMin
  let interXMax := min axMax bxMax
  let interYMax := min ayMax byMax
  let interArea := max 0 (interXMax - interXMin) * max 0 (interYMax - interYMin)
  let areaA := max 0 (axMax - axMin) * max 0 (ayMax - ayMin)
  let areaB := max 0 (bxMax - bxMin) * max 0 (byMax - byMin)
  let union := areaA + areaB - interArea
  if union ≤ 0 then 0 else interArea / union

/-- Stable insertion step realizing the contract of
`[...].sort((a, b) => b.score - a.score)`: descending by score, candidates of
equal score keeping their original order. -/
def insertByScoreDesc (b : DetectionBox) : List DetectionBox → List DetectionBox
  | [] => [b]
  | a :: l => if a.score ≤ b.score then b :: a :: l else a :: insertByScoreDesc b l

def sortByScoreDesc : List DetectionBox → List DetectionBox
  | [] => []
  | b :: l => insertByScoreDesc b (sortByScoreDesc l)

/-- The `for (const candidate of sorted)` selection loop: a candidate is kept
when its IoU with every already-selected box does not exceed the threshold,
and the loop breaks as soon as (after a possible push) the selection reaches
`maxHands`. -/
def nmsSelectLoop (iouThreshold maxHands : ℚ) :
    List DetectionBox → List DetectionBox → List DetectionBox
  | [], selected => selected
  | candidate :: rest, selected =>
    let overlaps := selected.any fun chosen =>
      iouThreshold < intersectionOverUnionLocal candidate chosen
    let selected1 := if overlaps then selected else selected ++ [candidate]
    if maxHands ≤ (selected1.length : ℚ) then selected1
    else nmsSelectLoop iouThreshold maxHands rest selected1

/-- Filter + sort + greedy-selection pipeline applied to the decoded boxes
inside `prepareDetections`. -/
def suppressDetections (params : DetectionParams)
    (decoded : List DetectionBox) : List DetectionBox :=
  let filtered := decoded.filter fun box => params.scoreThreshold ≤ box.score
  let sorted := sortByScoreDesc filtered
  nmsSelectLoop params.iouThreshold params.maxHands sorted []

def prepareDetections (ops : MathOps) (detectorOutput : MLRawDetectorOutput)
    (anchors : List Anchor) (meta : FrameMeta)
    (overrides : Option DetectionParamsOverrides) : PreparedDetections :=
  let params := mergeDetectionParams overrides
  let decoded := decodeDetectionsInternal ops detectorOutput anchors
  let selected := suppressDetections params decoded
  let boxesOnFrame := selected.map fun box => mapBoxToFrame box meta
  let roiBoxes := boxesOnFrame.map fun box => expandRoiForLandmarks box meta params.roiExpansion
  { boxes := selected
    boxesOnFrame := boxesOnFrame
    roiBoxesOnFrame := roiBoxes
    numDetectionsBeforeNMS := decoded.length }

-- ---------------------------------------------------------------------------
-- Hand descriptor builder
-- ---------------------------------------------------------------------------

def visibilityReduceMean (values : List ℚ) : ℚ :=
  let mean := values.sum / ((max 1 values.length : ℕ) : ℚ)
  min (max mean 0) 1

def computeHandQuality (detectionScore landmarkScore : ℚ)
    (visibility : Option (List ℚ)) : ℚ :=
  let visMean :=
    match visibility with
    | some v => if 0 < v.length then visibilityReduceMean v else 1
    | none => 1
  let score := 0.5 * detectionScore + 0.3 * landmarkScore + 0.2 * visMean
  min (max score 0) 1

def FINGER_INDICES : FingerName → ℕ × ℕ × ℕ × ℕ
  | FingerName.Thumb => (1, 2, 3, 4)
  | FingerName.Index => (5, 6, 7, 8)
  | FingerName.Middle => (9, 10, 11, 12)
  | FingerName.Ring => (13, 14, 15, 16)
  | FingerName.Pinky => (17, 18, 19, 20)

/-- In the source `z` is guarded with `?? 0`; here `z` is total. -/
def subtractVec (a b : Landmark3D) : Vec3 :=
  { x := a.x - b.x, y := a.y - b.y, z := a.z - b.z }

def crossVec (a b : Vec3) : Vec3 :=
  { x := a.y * b.z - a.z * b.y
    y := a.z * b.x - a.x * b.z
    z := a.x * b.y - a.y * b.x }

def normalizeVec (ops : MathOps) (vec : Vec3) : Vec3 :=
  let length := ops.hypot3 vec.x vec.y vec.z
  if length < EPSILON then { x := 0, y := 0, z := 1 }
  else { x := vec.x / length, y := vec.y / length, z := vec.z / length }

def avgVec (vectors : List Vec3) : Vec3 :=
  if vectors.length = 0 then { x := 0, y := 0, z := 1 }
  else
    { x := (vectors.map (·.x)).sum / (vectors.length : ℚ)
      y := (vectors.map (·.y)).sum / (vectors.length : ℚ)
      z := (vectors.map (·.z)).sum / (vectors.length : ℚ) }

def angleBetween (ops : MathOps) (a b : Vec3) : ℚ :=
  let normA := ops.hypot3 a.x a.y a.z
  let normB := ops.hypot3 b.x b.y b.z
  if normA < EPSILON ∨ normB < EPSILON then 0
  else
    let dot := a.x * b.x + a.y * b.y + a.z * b.z
    ops.acos (min (max (dot / (normA * normB)) (-1)) 1)

/-- The source declares `distance2D` on `Point2D` and applies it (by
structural typing) to landmarks; the only call sites pass landmarks. -/
def distance2D (ops : MathOps) (a b : Landmark3D) : ℚ :=
  ops.hypot2 (a.x - b.x) (a.y - b.y)

/-- Model of JavaScript `isFinite` on a decoded angle.  Rationals model the
finite doubles, so in the embedding the test is constantly `true`; the real
safety argument is that the argument handed to `acos` is clamped to
`[-1, 1]`, which the theorems state explicitly. -/
def isFiniteNum (_ : ℚ) : Bool := true

def zeroLandmark : Landmark3D := { x := 0, y := 0, z := 0 }

/-- Per-finger body of the `forEach` in `computeHandPose`.  The `forEach`
writes every key of the initially-`Unknown` record exactly once, so the
resulting record is this classification applied to each finger. -/
def fingerStateFor (ops : MathOps) (landmarks : List Landmark3D)
    (finger : FingerName) : FingerState :=
  let idx := FINGER_INDICES finger
  let mcp := landmarks.getD idx.1 zeroLandmark
  let pip := landmarks.getD idx.2.1 zeroLandmark
  let _dip := landmarks.getD idx.2.2.1 zeroLandmark
  let tip := landmarks.getD idx.2.2.2 zeroLandmark
  let vec1 := subtractVec mcp pip
  let vec2 := subtractVec pip tip
  let angle := angleBetween ops vec1 vec2
  if !isFiniteNum angle then FingerState.Unknown
  else
    let angleDeg := angle * 180 / ops.pi
    if angleDeg < 55 then FingerState.Open
    else if angleDeg < 75 then FingerState.Pointing
    else FingerState.Closed

def computeHandPose (ops : MathOps) (landmarks : List Landmark3D) : HandPose :=
  let palmSize :=
    distance2D ops (landmarks.getD 0 zeroLandmark) (landmarks.getD 9 zeroLandmark) +
    distance2D ops (landmarks.getD 0 zeroLandmark) (landmarks.getD 13 zeroLandmark)
  let palmSpan := max (palmSize / 2) 1
  let fingers : FingerStates :=
    { Thumb := fingerStateFor ops landmarks FingerName.Thumb
      Index := fingerStateFor ops landmarks FingerName.Index
      Middle := fingerStateFor ops landmarks FingerName.Middle
      Ring := fingerStateFor ops landmarks FingerName.Ring
      Pinky := fingerStateFor ops landmarks FingerName.Pinky }
  let thumbTip := landmarks.getD 4 zeroLandmark
  let indexTip := landmarks.getD 8 zeroLandmark
  let pinchDistance := distance2D ops thumbTip indexTip
  let pinchStrength := min (max (1 - pinchDistance / (palmSpan * 0.8)) 0) 1
  let isPinching := decide (0.6 < pinchStrength)
  let spread :=
    min (max (distance2D ops (landmarks.getD 5 zeroLandmark)
      (landmarks.getD 17 zeroLandmark) / palmSize) 0) 1
  { fingers := fingers
    isPinching := isPinching
    pinchStrength := pinchStrength
    spread := spread }

def computeHandSpatialInfo (ops : MathOps) (detectionBox : DetectionBoxOnFrame)
    (landmarks : List Landmark3D) (meta : FrameMeta) : HandSpatialInfo :=
  let normalizedCenter : Point2D :=
    { x := min (max (detectionBox.cxPx / meta.frameWidth) 0) 1
      y := min (max (detectionBox.cyPx / meta.frameHeight) 0) 1 }
  let depthApprox :=
    if landmarks.length = 0 then 0
    else (landmarks.map (·.z)).sum / (landmarks.length : ℚ)
  let center : Point2D := { x := detectionBox.cxPx, y := detectionBox.cyPx }
  let size : SizeWH := { w := detectionBox.wPx, h := detectionBox.hPx }
  let isNearCenter :=
    decide (ops.hypot2 (normalizedCenter.x - 0.5) (normalizedCenter.y - 0.5) < 0.25)
  { center := center
    normalizedCenter := normalizedCenter
    size := size
    depthApprox := depthApprox
    isNearCenter := isNearCenter }

-- ---------------------------------------------------------------------------
-- Relation inferencer
-- ---------------------------------------------------------------------------

/-- Body of the double loop of `inferInterHandRelations` for one ordered pair. -/
def relationForPair (ops : MathOps) (handA handB : HandState) : InterHandRelation :=
  let dx := handA.spatial.center.x - handB.spatial.center.x
  let dy := handA.spatial.center.y - handB.spatial.center.y
  let distancePx := ops.hypot2 dx dy
  let avgSize := (handA.spatial.size.w + handB.spatial.size.w) / 2
  let classified : InterHandRelationType × ℚ :=
    if handA.handedness ≠ handB.handedness ∧
        |handA.spatial.center.y - handB.spatial.center.y| < avgSize * 0.4 ∧
        distancePx < avgSize * 1.6 then
      (InterHandRelationType.HandshakeCandidate, 0.8)
    else if distancePx < avgSize * 1.2 then (InterHandRelationType.HandsClose, 0.6)
    else if |dx| < avgSize * 0.5 then (InterHandRelationType.Crossing, 0.4)
    else (InterHandRelationType.Unknown, 0)
  { handIdA := handA.id
    handIdB := handB.id
    type := classified.1
    distancePx := distancePx
    confidence := classified.2 }

def emptyBoxOnFrame : DetectionBoxOnFrame :=
  { id := 0, score := 0, cx := 0, cy := 0, w := 0, h := 0, rotation := 0
    palmKeypoints := [], cxPx := 0, cyPx := 0, wPx := 0, hPx := 0
    xMin := 0, yMin := 0, xMax := 0, yMax := 0, palmKeypointsPx := [] }

/-- Out-of-range fallback for indexed hand access; the loops below only index
within bounds, so this value is never observed. -/
def emptyHandState : HandState :=
  { id := ""
    handedness := Handedness.Left
    handednessScore := 0
    qualityScore := 0
    detectionBox := emptyBoxOnFrame
    landmarks := []
    orientation :=
      { palmNormal := { x := 0, y := 0, z := 1 }
        fingerDirection := { x := 0, y := 0, z := 1 }
        yaw := 0, pitch := 0, roll := 0 }
    pose :=
      { fingers :=
          { Thumb := FingerState.Unknown, Index := FingerState.Unknown
            Middle := FingerState.Unknown, Ring := FingerState.Unknown
            Pinky := FingerState.Unknown }
        isPinching := false, pinchStrength := 0, spread := 0 }
    spatial :=
      { center := { x := 0, y := 0 }, normalizedCenter := { x := 0, y := 0 }
        size := { w := 0, h := 0 }, depthApprox := 0, isNearCenter := false } }

def inferInterHandRelations (ops : MathOps) (hands : List HandState) :
    List InterHandRelation :=
  if hands.length < 2 then []
  else
    (List.range hands.length).flatMap fun i =>
      (List.range' (i + 1) (hands.length - (i + 1))).map fun j =>
        relationForPair ops (hands.getD i emptyHandState) (hands.getD j emptyHandState)

-- ---------------------------------------------------------------------------
-- Orientation and the main per-frame interpreter
-- ---------------------------------------------------------------------------

def computeHandOrientation (ops : MathOps) (landmarks : List Landmark3D)
    (detectionBox : DetectionBoxOnFrame) : HandOrientation :=
  let wrist := landmarks.getD 0 zeroLandmark
  let indexMcp := landmarks.getD 5 zeroLandmark
  let _middleMcp := landmarks.getD 9 zeroLandmark
  let pinkyMcp := landmarks.getD 17 zeroLandmark
  let palmVecA := subtractVec wrist indexMcp
  let palmVecB := subtractVec wrist pinkyMcp
  let palmNormal := normalizeVec ops (crossVec palmVecA palmVecB)
  let fingerVecs :=
    [subtractVec (landmarks.getD 8 zeroLandmark) (landmarks.getD 5 zeroLandmark),
     subtractVec (landmarks.getD 12 zeroLandmark) (landmarks.getD 9 zeroLandmark),
     subtractVec (landmarks.getD 16 zeroLandmark) (landmarks.getD 13 zeroLandmark),
     subtractVec (landmarks.getD 20 zeroLandmark) (landmarks.getD 17 zeroLandmark)]
  let fingerDirection := normalizeVec ops (avgVec fingerVecs)
  let roll :=
    if detectionBox.rotation = 0 then
      ops.atan2 (pinkyMcp.y - indexMcp.y) (pinkyMcp.x - indexMcp.x)
    else detectionBox.rotation
  let yaw :=
    ops.atan2 fingerDirection.x
      (if fingerDirection.z = 0 then EPSILON else fingerDirection.z)
  let pitchDen := ops.sqrt (fingerDirection.x ^ 2 + fingerDirection.z ^ 2)
  let pitch := ops.atan2 (-fingerDirection.y) (if pitchDen = 0 then EPSILON else pitchDen)
  { palmNormal := palmNormal
    fingerDirection := fingerDirection
    yaw := yaw
    pitch := pitch
    roll := roll }

def emptyRawLandmarks : MLRawLandmarksOutput :=
  { landmarks := [], handedness := Handedness.Left, handednessScore := 0 }

/-- `interpretFrame`.  The two `getNow()` readings are surfaced as the
parameters `t0`/`t1` (time is an input of the embedding, not an effect). -/
def interpretFrame (ops : MathOps) (t0 t1 : ℚ)
    (detectorOutput : MLRawDetectorOutput)
    (landmarkOutputsPerHand : Option (List MLRawLandmarksOutput))
    (anchors : List Anchor) (meta : FrameMeta)
    (options : Option InterpretFrameOptions) : SceneInterpretation :=
  let params := mergeDetectionParams (options.bind (·.detectionParams))
  let prepared := (options.bind (·.precomputed)).getD
    (prepareDetections ops detectorOutput anchors meta (some params.toOverrides))
  let landmarkOutputs := landmarkOutputsPerHand.getD []
  let usableCount := min prepared.roiBoxesOnFrame.length landmarkOutputs.length
  let hands := (List.range usableCount).map fun i =>
    let roi := prepared.roiBoxesOnFrame.getD i emptyBoxOnFrame
    let detectionBox := prepared.boxesOnFrame.getD i emptyBoxOnFrame
    let rawLandmarks := landmarkOutputs.getD i emptyRawLandmarks
    let mappedLandmarks := mapLandmarksToFrame rawLandmarks roi
    let landmarkScore :=
      match rawLandmarks.landmarkScore with
      | some s => s
      | none =>
        match rawLandmarks.presenceScore with
        | some s => s
        | none => rawLandmarks.handednessScore
    let qualityScore :=
      computeHandQuality detectionBox.score landmarkScore rawLandmarks.visibility
    let orientation := computeHandOrientation ops mappedLandmarks detectionBox
    let pose := computeHandPose ops mappedLandmarks
    let spatial := computeHandSpatialInfo ops detectionBox mappedLandmarks meta
    ({ id := toString (meta.frameId.getD DEFAULT_FRAME_ID) ++ "-" ++ toString i
       handedness := rawLandmarks.handedness
       handednessScore := rawLandmarks.handednessScore
       qualityScore := qualityScore
       detectionBox := detectionBox
       landmarks := mappedLandmarks
       orientation := orientation
       pose := pose
       spatial := spatial } : HandState)
  let interHandRelations := inferInterHandRelations ops hands
  let processingTimeMs :=
    if (options.bind (·.includePerformanceMetrics)).getD false then some (t1 - t0)
    else none
  { frameId := meta.frameId.getD DEFAULT_FRAME_ID
    hands := hands
    interHandRelations := interHandRelations
    rawMeta :=
      { numDetectionsBeforeNMS := prepared.numDetectionsBeforeNMS
        processingTimeMs := processingTimeMs
        frameWidth := meta.frameWidth
        frameHeight := meta.frameHeight } }

-- ---------------------------------------------------------------------------
-- Temporal stabilizer (App.tsx: hasSignificantMovement3D / handsForDisplay)
-- ---------------------------------------------------------------------------

/-- `hasSignificantMovement3D` from the app shell: scans the landmarks and
reports whether any per-landmark 2D displacement exceeds the threshold
(indices missing from `previous` are skipped, as in the `!prev` guard). -/
def hasSignificantMovement3D (ops : MathOps) (current previous : List Landmark3D)
    (threshold : ℚ) : Bool :=
  (List.range current.length).any fun i =>
    match previous.get? i with
    | none => false
    | some prev =>
      decide (threshold <
        ops.hypot2 ((current.getD i zeroLandmark).x - prev.x)
          ((current.getD i zeroLandmark).y - prev.y))

/-- JavaScript `a || b` on numbers: `b` when `a` is falsy (`0`). -/
def jsOrNum (a b : ℚ) : ℚ := if a = 0 then b else a

/-- `frameMinSize` of `handsForDisplay`:
`Math.min(width || previewSize || 0, height || previewSize || 0) || 1`. -/
def frameMinSizeOf (frameW frameH previewSize : ℚ) : ℚ :=
  jsOrNum (min (jsOrNum frameW (jsOrNum previewSize 0))
    (jsOrNum frameH (jsOrNum previewSize 0))) 1

/-- The movement threshold of the stabilizer: 8% of the smaller frame
dimension. -/
def movementThresholdOf (frameW frameH previewSize : ℚ) : ℚ :=
  frameMinSizeOf frameW frameH previewSize * 0.08

/-- The unweighted per-index mean over the held history frames, with the
`if (count === 0)` fallback to the raw landmark. -/
def averageLandmarks (updatedHistory : List (List Landmark3D))
    (current : List Landmark3D) : List Landmark3D :=
  (List.range current.length).map fun index =>
    let pts := updatedHistory.filterMap fun framePoints => framePoints.get? index
    if pts.length = 0 then current.getD index zeroLandmark
    else
      { x := (pts.map (·.x)).sum / (pts.length : ℚ)
        y := (pts.map (·.y)).sum / (pts.length : ℚ)
        z := (pts.map (·.z)).sum / (pts.length : ℚ) }

/-- One stabilizer update for one tracked identity: the body of the
`hands.map` inside `handsForDisplay` (`handHistoryRef` keys the histories by
`hand.id`; this is the transition applied to the entry of one id).  Returns
the landmarks handed to the display and the updated history. -/
def smoothHandStep (ops : MathOps) (movementThreshold : ℚ) (maxHistorySize : ℕ)
    (history : List (List Landmark3D)) (current : List Landmark3D) :
    List Landmark3D × List (List Landmark3D) :=
  let history1 :=
    if 0 < history.length ∧
        hasSignificantMovement3D ops current
          (history.getD (history.length - 1) []) movementThreshold = true then []
    else history
  let updatedHistory0 := history1 ++ [current]
  let updatedHistory :=
    if maxHistorySize < updatedHistory0.length then updatedHistory0.drop 1
    else updatedHistory0
  if updatedHistory.length < 2 then (current, updatedHistory)
  else (averageLandmarks updatedHistory current, updatedHistory)

/-- `maxHistorySize` in the app shell. -/
def APP_MAX_HISTORY_SIZE : ℕ := 3

-- ---------------------------------------------------------------------------
-- Shared helper lemmas
-- ---------------------------------------------------------------------------

-- The kernel is free to unfold the rational primitives; making them
-- semireducible again lets `decide` evaluate the embedded definitions on
-- concrete inputs.
unseal Rat.add Rat.mul Rat.inv Rat.sub Rat.ofScientific

theorem clamp01_mem (q : ℚ) : 0 ≤ min (max q 0) 1 ∧ min (max q 0) 1 ≤ 1 :=
  ⟨le_min (le_max_right q 0) zero_le_one, min_le_right _ 1⟩

def emptyDetectionBox : DetectionBox :=
  { id := 0, score := 0, cx := 0, cy := 0, w := 0, h := 0, rotation := 0
    palmKeypoints := [] }

/-- Concrete well-shaped single-anchor detector input used by witnesses. -/
def witnessDetectorOut : MLRawDetectorOutput :=
  { rawBoxes := List.replicate 18 0, rawScores := [0] }

def witnessAnchors : List Anchor :=
  [{ xCenter := 0.5, yCenter := 0.5, width := 1, height := 1 }]

-- ---------------------------------------------------------------------------
-- C1: decoder output ranges
-- ---------------------------------------------------------------------------

/-- C1 (amended): for every detector input, every `DetectionBox` emitted by
`decodeDetectionsInternal` has its score in [0,1] (positivity of `exp` is the
only fact used about it) and its clamped center `cx`/`cy` and size `w`/`h` in
[0,1].  The 7 palm keypoints are not clamped by the decoder — see the
counterexample `decode_palm_keypoint_escapes_unit_interval`. -/
theorem decode_score_center_size_in_unit_interval (ops : MathOps)
    (hexp : ∀ q : ℚ, 0 < ops.exp q)
    (detectorOutput : MLRawDetectorOutput) (anchors : List Anchor)
    (b : DetectionBox) (hb : b ∈ decodeDetectionsInternal ops detectorOutput anchors) :
    0 ≤ b.score ∧ b.score ≤ 1 ∧ 0 ≤ b.cx ∧ b.cx ≤ 1 ∧ 0 ≤ b.cy ∧ b.cy ≤ 1 ∧
      0 ≤ b.w ∧ b.w ≤ 1 ∧ 0 ≤ b.h ∧ b.h ≤ 1 := by
  rw [decodeDetectionsInternal, List.mem_map] at hb
  obtain ⟨i, -, rfl⟩ := hb
  dsimp only [decodeOneBox]
  refine ⟨?_, ?_, (clamp01_mem _).1, (clamp01_mem _).2, (clamp01_mem _).1,
    (clamp01_mem _).2, (clamp01_mem _).1, (clamp01_mem _).2, (clamp01_mem _).1,
    (clamp01_mem _).2⟩
  · split
    · have h1 := hexp (-(detectorOutput.rawScores.getD i 0))
      positivity
    · have h1 := hexp (detectorOutput.rawScores.getD i 0)
      positivity
  · split
    · have h1 := hexp (-(detectorOutput.rawScores.getD i 0))
      rw [div_le_one (by linarith)]
      linarith
    · have h1 := hexp (detectorOutput.rawScores.getD i 0)
      rw [div_le_one (by linarith)]
      linarith

/-- C1 witness: the range theorem applied to a concrete single-anchor input. -/
theorem decode_score_center_size_in_unit_interval_witness :
    0 ≤ (decodeOneBox sampleOps witnessDetectorOut witnessAnchors 0).score ∧
      (decodeOneBox sampleOps witnessDetectorOut witnessAnchors 0).score ≤ 1 ∧
      0 ≤ (decodeOneBox sampleOps witnessDetectorOut witnessAnchors 0).cx ∧
      (decodeOneBox sampleOps witnessDetectorOut witnessAnchors 0).cx ≤ 1 ∧
      0 ≤ (decodeOneBox sampleOps witnessDetectorOut witnessAnchors 0).cy ∧
      (decodeOneBox sampleOps witnessDetectorOut witnessAnchors 0).cy ≤ 1 ∧
      0 ≤ (decodeOneBox sampleOps witnessDetectorOut witnessAnchors 0).w ∧
      (decodeOneBox sampleOps witnessDetectorOut witnessAnchors 0).w ≤ 1 ∧
      0 ≤ (decodeOneBox sampleOps witnessDetectorOut witnessAnchors 0).h ∧
      (decodeOneBox sampleOps witnessDetectorOut witnessAnchors 0).h ≤ 1 :=
  decode_score_center_size_in_unit_interval sampleOps (fun _ => one_pos)
    witnessDetectorOut witnessAnchors _ (by decide)

/-- Detector input whose first palm keypoint regression value is 384, so the
decoded keypoint x is 0.5 + (384/192)·1 = 2.5. -/
def cexDetectorOut : MLRawDetectorOutput :=
  { rawBoxes := [0, 0, 0, 0, 0, 384, 0, 0, 0, 0, 0, 0, 0, 0, 0, 0, 0, 0]
    rawScores := [0] }

/-- C1 counterexample: the decoder does not clamp palm keypoints — here the
emitted box's first keypoint has x = 5/2 ∉ [0,1].  The keypoint coordinates
do not depend on any `MathOps` primitive, so the instantiation is immaterial. -/
theorem decode_palm_keypoint_escapes_unit_interval :
    (((decodeDetectionsInternal sampleOps cexDetectorOut witnessAnchors).getD 0
        emptyDetectionBox).palmKeypoints.getD 0 ({ x := 0, y := 0 } : Point2D)).x = 5 / 2 ∧
    ¬ (((decodeDetectionsInternal sampleOps cexDetectorOut witnessAnchors).getD 0
        emptyDetectionBox).palmKeypoints.getD 0 ({ x := 0, y := 0 } : Point2D)).x ≤ 1 := by
  decide

-- ---------------------------------------------------------------------------
-- C4: anchor generator determinism, count, and layout
-- ---------------------------------------------------------------------------

/-- With `fixedAnchorSize` set, the generated anchors do not depend on the
`sqrt` primitive (the only `MathOps` member the generator mentions). -/
theorem anchorsFromOptions_ops_invariant (ops1 ops2 : MathOps)
    (opts : AnchorGeneratorOptions) (h : opts.fixedAnchorSize = true) :
    anchorsFromOptions ops1 opts = anchorsFromOptions ops2 opts := by
  simp [anchorsFromOptions, h]

theorem createPalmDetectionAnchors_length (ops : MathOps) :
    (createPalmDetectionAnchors ops).length = 2016 := by
  simp [createPalmDetectionAnchors, anchorsFromOptions, palmAnchorOptions,
    List.length_flatMap, Function.comp_def, List.map_const', List.sum_replicate,
    smul_eq_mul]
  decide

theorem mem_createPalmDetectionAnchors (ops : MathOps) (a : Anchor)
    (h : a ∈ createPalmDetectionAnchors ops) :
    a.width = 1 ∧ a.height = 1 ∧ ∃ fm x y : ℕ, (fm = 24 ∨ fm = 12) ∧ x < fm ∧ y < fm ∧
      a.xCenter = ((x : ℚ) + 0.5) / (fm : ℚ) ∧ a.yCenter = ((y : ℚ) + 0.5) / (fm : ℚ) := by
  simp [createPalmDetectionAnchors, anchorsFromOptions, palmAnchorOptions,
    List.mem_flatMap] at h
  obtain ⟨layer, hlayer, hrest⟩ := h
  interval_cases layer <;>
    · simp only [List.getElem?_cons_zero, List.getElem?_cons_succ, Option.getD_some] at hrest
      obtain ⟨y, hy, x, hx, hor⟩ := hrest
      rcases hor with rfl | rfl <;>
        refine ⟨rfl, rfl, ?_⟩ <;>
        norm_num [Int.toNat_ofNat] at hy hx ⊢ <;>
        first
        | exact Or.inl ⟨x, hx, y, hy, rfl, rfl⟩
        | exact Or.inr ⟨x, hx, y, hy, rfl, rfl⟩

/-- C4: `createPalmDetectionAnchors` is deterministic (its result does not
depend on the abstracted numeric primitives, hence two calls agree), its
anchor count is the sum over stride levels of ceil(192/stride)^2 times
(number of aspect ratios + 1 interpolated anchor) = 2016, and every anchor
has width 1, height 1, and center at a grid-cell center offset by 0.5 (the
per-level grids have 24 or 12 cells on a side). -/
theorem createPalmDetectionAnchors_spec (ops1 ops2 : MathOps) :
    createPalmDetectionAnchors ops1 = createPalmDetectionAnchors ops2 ∧
    (createPalmDetectionAnchors ops1).length =
      (palmAnchorOptions.strides.map fun stride =>
        (Int.ceil ((192 : ℚ) / (stride : ℚ))).toNat ^ 2 *
          (palmAnchorOptions.aspectRatios.length + 1)).sum ∧
    (createPalmDetectionAnchors ops1).length = 2016 ∧
    ∀ a ∈ createPalmDetectionAnchors ops1, a.width = 1 ∧ a.height = 1 ∧
      ∃ fm x y : ℕ, (fm = 24 ∨ fm = 12) ∧ x < fm ∧ y < fm ∧
        a.xCenter = ((x : ℚ) + 0.5) / (fm : ℚ) ∧ a.yCenter = ((y : ℚ) + 0.5) / (fm : ℚ) := by
  refine ⟨anchorsFromOptions_ops_invariant ops1 ops2 palmAnchorOptions rfl, ?_, ?_, ?_⟩
  · rw [createPalmDetectionAnchors_length]
    decide
  · exact createPalmDetectionAnchors_length ops1
  · exact fun a ha => mem_createPalmDetectionAnchors ops1 a ha

/-- C4 witness: the layout part of the anchor theorem applied to the first
generated anchor (grid cell (0,0) of the stride-8 level, center 1/48). -/
theorem createPalmDetectionAnchors_spec_witness :
    ({ xCenter := 1/48, yCenter := 1/48, width := 1, height := 1 } : Anchor).width = 1 ∧
    ({ xCenter := 1/48, yCenter := 1/48, width := 1, height := 1 } : Anchor).height = 1 ∧
    ∃ fm x y : ℕ, (fm = 24 ∨ fm = 12) ∧ x < fm ∧ y < fm ∧
      ({ xCenter := 1/48, yCenter := 1/48, width := 1, height := 1 } : Anchor).xCenter =
        ((x : ℚ) + 0.5) / (fm : ℚ) ∧
      ({ xCenter := 1/48, yCenter := 1/48, width := 1, height := 1 } : Anchor).yCenter =
        ((y : ℚ) + 0.5) / (fm : ℚ) :=
  (createPalmDetectionAnchors_spec sampleOps sampleOps).2.2.2
    { xCenter := 1/48, yCenter := 1/48, width := 1, height := 1 } (by decide)

-- ---------------------------------------------------------------------------
-- C2: suppressor lemmas
-- ---------------------------------------------------------------------------

theorem intersectionOverUnionLocal_comm (a b : DetectionBox) :
    intersectionOverUnionLocal a b = intersectionOverUnionLocal b a := by
  simp only [intersectionOverUnionLocal]
  rw [max_comm (a.cx - a.w / 2), max_comm (a.cy - a.h / 2),
    min_comm (a.cx + a.w / 2), min_comm (a.cy + a.h / 2),
    add_comm (max 0 (a.cx + a.w / 2 - (a.cx - a.w / 2)) * max 0 (a.cy + a.h / 2 - (a.cy - a.h / 2)))]

theorem insertByScoreDesc_perm (b : DetectionBox) (l : List DetectionBox) :
    (insertByScoreDesc b l).Perm (b :: l) := by
  induction l with
  | nil => exact List.Perm.refl _
  | cons a t ih =>
    rw [insertByScoreDesc]
    split
    · exact List.Perm.refl _
    · exact (ih.cons a).trans (List.Perm.swap b a t)

theorem insertByScoreDesc_sorted (b : DetectionBox) (l : List DetectionBox)
    (h : l.Pairwise fun x y => y.score ≤ x.score) :
    (insertByScoreDesc b l).Pairwise fun x y => y.score ≤ x.score := by
  induction l with
  | nil => simp [insertByScoreDesc]
  | cons a t ih =>
    rw [List.pairwise_cons] at h
    rw [insertByScoreDesc]
    split
    · rename_i hab
      refine List.pairwise_cons.2 ⟨?_, List.pairwise_cons.2 h⟩
      intro x hx
      rcases List.mem_cons.1 hx with rfl | hxt
      · exact hab
      · exact (h.1 x hxt).trans hab
    · rename_i hab
      refine List.pairwise_cons.2 ⟨?_, ih h.2⟩
      intro x hx
      rcases List.mem_cons.1 ((insertByScoreDesc_perm b t).mem_iff.1 hx) with rfl | hxt
      · exact le_of_lt (lt_of_not_le hab)
      · exact h.1 x hxt

theorem sortByScoreDesc_perm (l : List DetectionBox) : (sortByScoreDesc l).Perm l := by
  induction l with
  | nil => exact List.Perm.refl _
  | cons b t ih => exact (insertByScoreDesc_perm b (sortByScoreDesc t)).trans (ih.cons b)

theorem sortByScoreDesc_sorted (l : List DetectionBox) :
    (sortByScoreDesc l).Pairwise fun x y => y.score ≤ x.score := by
  induction l with
  | nil => simp [sortByScoreDesc]
  | cons b t ih => exact insertByScoreDesc_sorted b (sortByScoreDesc t) ih

theorem nmsSelectLoop_mem (thr mh : ℚ) (l : List DetectionBox) :
    ∀ sel x, x ∈ nmsSelectLoop thr mh l sel → x ∈ sel ∨ x ∈ l := by
  induction l with
  | nil =>
    intro sel x hx
    rw [nmsSelectLoop] at hx
    exact Or.inl hx
  | cons c rest ih =>
    intro sel x hx
    rw [nmsSelectLoop] at hx
    have hstep : ∀ s1 : List DetectionBox, (∀ y, y ∈ s1 → y ∈ sel ∨ y = c) →
        x ∈ (if mh ≤ (s1.length : ℚ) then s1 else nmsSelectLoop thr mh rest s1) →
        x ∈ sel ∨ x ∈ c :: rest := by
      intro s1 hs1 hx1
      by_cases hlen : mh ≤ (s1.length : ℚ)
      · rw [if_pos hlen] at hx1
        rcases hs1 x hx1 with h | rfl
        · exact Or.inl h
        · exact Or.inr (List.mem_cons_self x rest)
      · rw [if_neg hlen] at hx1
        rcases ih s1 x hx1 with h | h
        · rcases hs1 x h with h2 | rfl
          · exact Or.inl h2
          · exact Or.inr (List.mem_cons_self x rest)
        · exact Or.inr (List.mem_cons_of_mem c h)
    by_cases hA : (sel.any fun chosen =>
        decide (thr < intersectionOverUnionLocal c chosen)) = true
    · rw [if_pos hA] at hx
      exact hstep sel (fun y hy => Or.inl hy) hx
    · rw [if_neg hA] at hx
      refine hstep (sel ++ [c]) ?_ hx
      intro y hy
      rcases List.mem_append.1 hy with h | h
      · exact Or.inl h
      · exact Or.inr (List.mem_singleton.1 h)

theorem nmsSelectLoop_length (thr mh : ℚ) (l : List DetectionBox) :
    ∀ sel, (sel.length : ℚ) < mh →
      ((nmsSelectLoop thr mh l sel).length : ℚ) < mh + 1 := by
  induction l with
  | nil =>
    intro sel h
    rw [nmsSelectLoop]
    linarith
  | cons c rest ih =>
    intro sel h
    rw [nmsSelectLoop]
    have hstep : ∀ s1 : List DetectionBox, (s1.length : ℚ) ≤ (sel.length : ℚ) + 1 →
        (((if mh ≤ (s1.length : ℚ) then s1
          else nmsSelectLoop thr mh rest s1)).length : ℚ) < mh + 1 := by
      intro s1 hs1
      by_cases hlen : mh ≤ (s1.length : ℚ)
      · rw [if_pos hlen]
        linarith
      · rw [if_neg hlen]
        exact ih s1 (lt_of_not_le hlen)
    by_cases hA : (sel.any fun chosen =>
        decide (thr < intersectionOverUnionLocal c chosen)) = true
    · rw [if_pos hA]
      exact hstep sel (by linarith)
    · rw [if_neg hA]
      refine hstep (sel ++ [c]) ?_
      rw [List.length_append, List.length_singleton]
      push_cast
      linarith

theorem nmsSelectLoop_sorted (thr mh : ℚ) (l : List DetectionBox) :
    ∀ sel, ((sel ++ l).Pairwise fun x y => y.score ≤ x.score) →
      (nmsSelectLoop thr mh l sel).Pairwise fun x y => y.score ≤ x.score := by
  induction l with
  | nil =>
    intro sel h
    rw [nmsSelectLoop]
    simpa using h
  | cons c rest ih =>
    intro sel h
    rw [nmsSelectLoop]
    have hstep : ∀ s1 : List DetectionBox,
        ((s1 ++ rest).Pairwise fun x y => y.score ≤ x.score) →
        ((if mh ≤ (s1.length : ℚ) then s1
          else nmsSelectLoop thr mh rest s1).Pairwise fun x y => y.score ≤ x.score) := by
      intro s1 hs1
      by_cases hlen : mh ≤ (s1.length : ℚ)
      · rw [if_pos hlen]
        exact List.Pairwise.sublist (List.sublist_append_left s1 rest) hs1
      · rw [if_neg hlen]
        exact ih s1 hs1
    by_cases hA : (sel.any fun chosen =>
        decide (thr < intersectionOverUnionLocal c chosen)) = true
    · rw [if_pos hA]
      refine hstep sel ?_
      refine List.Pairwise.sublist ?_ h
      exact (List.sublist_cons_self c rest).append_left sel
    · rw [if_neg hA]
      refine hstep (sel ++ [c]) ?_
      rw [← List.append_cons]
      exact h

theorem nmsSelectLoop_pairwise_iou (thr mh : ℚ) (l : List DetectionBox) :
    ∀ sel, (sel.Pairwise fun x y => intersectionOverUnionLocal x y ≤ thr) →
      (nmsSelectLoop thr mh l sel).Pairwise
        fun x y => intersectionOverUnionLocal x y ≤ thr := by
  induction l with
  | nil =>
    intro sel h
    rw [nmsSelectLoop]
    exact h
  | cons c rest ih =>
    intro sel h
    rw [nmsSelectLoop]
    have hstep : ∀ s1 : List DetectionBox,
        (s1.Pairwise fun x y => intersectionOverUnionLocal x y ≤ thr) →
        ((if mh ≤ (s1.length : ℚ) then s1
          else nmsSelectLoop thr mh rest s1).Pairwise
            fun x y => intersectionOverUnionLocal x y ≤ thr) := by
      intro s1 hs1
      by_cases hlen : mh ≤ (s1.length : ℚ)
      · rw [if_pos hlen]
        exact hs1
      · rw [if_neg hlen]
        exact ih s1 hs1
    by_cases hA : (sel.any fun chosen =>
        decide (thr < intersectionOverUnionLocal c chosen)) = true
    · rw [if_pos hA]
      exact hstep sel h
    · rw [if_neg hA]
      refine hstep (sel ++ [c]) ?_
      have hall : ∀ chosen ∈ sel, intersectionOverUnionLocal c chosen ≤ thr := by
        intro ch hch
        by_contra hgt
        exact hA (List.any_eq_true.2 ⟨ch, hch, decide_eq_true (lt_of_not_le hgt)⟩)
      refine List.pairwise_append.2 ⟨h, List.pairwise_singleton _ _, ?_⟩
      intro x hx y hy
      rw [List.mem_singleton] at hy
      subst hy
      rw [intersectionOverUnionLocal_comm]
      exact hall x hx

/-- C2 (amended): for every decoded candidate list and detection parameters
whose `maxHands` is a positive integer, the suppressor returns at most
`maxHands` boxes, every returned box scores at least `scoreThreshold`, the
returned boxes are in descending score order, and any two returned boxes
(in either order) have IoU at most `iouThreshold`.  With `maxHands = 0` the
loop can still return one box, because the cap is only tested after a push
(see the counterexample). -/
theorem suppressDetections_spec (params : DetectionParams) (decoded : List DetectionBox)
    (hden : params.maxHands.den = 1) (hpos : 1 ≤ params.maxHands) :
    ((suppressDetections params decoded).length : ℚ) ≤ params.maxHands ∧
    (∀ b ∈ suppressDetections params decoded, params.scoreThreshold ≤ b.score) ∧
    ((suppressDetections params decoded).Pairwise fun x y => y.score ≤ x.score) ∧
    ((suppressDetections params decoded).Pairwise fun x y =>
      intersectionOverUnionLocal x y ≤ params.iouThreshold ∧
      intersectionOverUnionLocal y x ≤ params.iouThreshold) := by
  have hnum : ((params.maxHands.num : ℚ)) = params.maxHands := by
    rw [← Rat.den_eq_one_iff]
    exact hden
  refine ⟨?_, ?_, ?_, ?_⟩
  · have h0 : (([] : List DetectionBox).length : ℚ) < params.maxHands := by
      simp only [List.length_nil, Nat.cast_zero]
      linarith
    have h1 := nmsSelectLoop_length params.iouThreshold params.maxHands
      (sortByScoreDesc (decoded.filter fun box =>
        decide (params.scoreThreshold ≤ box.score))) [] h0
    have h2 : ((suppressDetections params decoded).length : ℚ) < params.maxHands + 1 := h1
    have h3 : ((suppressDetections params decoded).length : ℤ) < params.maxHands.num + 1 := by
      rw [← hnum] at h2
      exact_mod_cast h2
    have h4 : ((suppressDetections params decoded).length : ℤ) ≤ params.maxHands.num := by
      omega
    have h5 : ((suppressDetections params decoded).length : ℚ) ≤
        (params.maxHands.num : ℚ) := by
      exact_mod_cast h4
    rw [hnum] at h5
    exact h5
  · intro b hb
    rcases nmsSelectLoop_mem params.iouThreshold params.maxHands _ [] b hb with h | h
    · simp at h
    · have hmem := (sortByScoreDesc_perm _).mem_iff.1 h
      have := List.mem_filter.1 hmem
      exact of_decide_eq_true this.2
  · exact nmsSelectLoop_sorted params.iouThreshold params.maxHands _ []
      (by simpa using sortByScoreDesc_sorted _)
  · refine List.Pairwise.imp ?_
      (nmsSelectLoop_pairwise_iou params.iouThreshold params.maxHands _ [] (List.Pairwise.nil))
    intro x y hxy
    exact ⟨hxy, by rw [intersectionOverUnionLocal_comm]; exact hxy⟩

/-- Two well-separated decoded candidates used by the C2 witness. -/
def witnessDecoded : List DetectionBox :=
  [{ id := 0, score := 0.9, cx := 0.3, cy := 0.3, w := 0.2, h := 0.2, rotation := 0,
     palmKeypoints := [] },
   { id := 1, score := 0.8, cx := 0.7, cy := 0.7, w := 0.2, h := 0.2, rotation := 0,
     palmKeypoints := [] }]

/-- C2 witness: the suppressor theorem applied to the default parameters and a
concrete two-candidate list. -/
theorem suppressDetections_spec_witness :
    ((suppressDetections DEFAULT_DETECTION_PARAMS witnessDecoded).length : ℚ) ≤
      DEFAULT_DETECTION_PARAMS.maxHands ∧
    (∀ b ∈ suppressDetections DEFAULT_DETECTION_PARAMS witnessDecoded,
      DEFAULT_DETECTION_PARAMS.scoreThreshold ≤ b.score) ∧
    ((suppressDetections DEFAULT_DETECTION_PARAMS witnessDecoded).Pairwise
      fun x y => y.score ≤ x.score) ∧
    ((suppressDetections DEFAULT_DETECTION_PARAMS witnessDecoded).Pairwise fun x y =>
      intersectionOverUnionLocal x y ≤ DEFAULT_DETECTION_PARAMS.iouThreshold ∧
      intersectionOverUnionLocal y x ≤ DEFAULT_DETECTION_PARAMS.iouThreshold) :=
  suppressDetections_spec DEFAULT_DETECTION_PARAMS witnessDecoded (by decide) (by decide)

def cexParamsZeroMax : DetectionParams :=
  { scoreThreshold := 0.5, maxHands := 0, iouThreshold := 0.3, roiExpansion := 1.25 }

def cexHighScoreBox : DetectionBox :=
  { id := 0, score := 1, cx := 1/2, cy := 1/2, w := 1/5, h := 1/5, rotation := 0,
    palmKeypoints := [] }

/-- C2 counterexample: with `maxHands = 0` the greedy loop still returns one
box (the cap is checked only after a push), so the output size exceeds
`maxHands`. -/
theorem suppressDetections_exceeds_zero_maxHands :
    (suppressDetections cexParamsZeroMax [cexHighScoreBox]).length = 1 ∧
    ¬ (((suppressDetections cexParamsZeroMax [cexHighScoreBox]).length : ℚ) ≤
        cexParamsZeroMax.maxHands) := by
  decide

-- ---------------------------------------------------------------------------
-- C3: empty-scene path of interpretFrame
-- ---------------------------------------------------------------------------

theorem mergeDetectionParams_toOverrides (p : DetectionParams) :
    mergeDetectionParams (some p.toOverrides) = p := by
  simp [mergeDetectionParams, DetectionParams.toOverrides]

theorem suppressDetections_of_low_scores (params : DetectionParams)
    (decoded : List DetectionBox)
    (hlow : ∀ b ∈ decoded, b.score < params.scoreThreshold) :
    suppressDetections params decoded = [] := by
  have hfilter : (decoded.filter fun box =>
      decide (params.scoreThreshold ≤ box.score)) = [] := by
    rw [List.filter_eq_nil_iff]
    intro b hb
    simpa using not_le.2 (hlow b hb)
  rw [suppressDetections]
  simp only [hfilter]
  rw [sortByScoreDesc, nmsSelectLoop]

theorem decodeDetectionsInternal_length (ops : MathOps)
    (detectorOutput : MLRawDetectorOutput) (anchors : List Anchor)
    (hshape : detectorOutput.rawBoxes.length =
      DETECTION_VALUES_PER_ANCHOR * anchors.length) :
    (decodeDetectionsInternal ops detectorOutput anchors).length = anchors.length := by
  rw [decodeDetectionsInternal]
  simp only [List.length_map, List.length_range, hshape, DETECTION_VALUES_PER_ANCHOR]
  omega

theorem prepareDetections_of_low_scores (ops : MathOps)
    (detectorOutput : MLRawDetectorOutput) (anchors : List Anchor) (meta : FrameMeta)
    (overrides : Option DetectionParamsOverrides)
    (hlow : ∀ b ∈ decodeDetectionsInternal ops detectorOutput anchors,
      b.score < (mergeDetectionParams overrides).scoreThreshold) :
    prepareDetections ops detectorOutput anchors meta overrides =
      { boxes := [], boxesOnFrame := [], roiBoxesOnFrame := [],
        numDetectionsBeforeNMS :=
          (decodeDetectionsInternal ops detectorOutput anchors).length } := by
  rw [prepareDetections]
  simp only [suppressDetections_of_low_scores _ _ hlow, List.map_nil]

/-- C3: when every decoded score is below the score threshold (and no
precomputed detections are injected), `interpretFrame` — a total function,
so no error is possible — returns an empty hand list, no relations, and a
pre-NMS detection count equal to the anchor count (well-shaped regression
tensor assumed: 18 values per anchor). -/
theorem interpretFrame_no_detections (ops : MathOps) (t0 t1 : ℚ)
    (detectorOutput : MLRawDetectorOutput)
    (landmarkOutputsPerHand : Option (List MLRawLandmarksOutput))
    (anchors : List Anchor) (meta : FrameMeta)
    (options : Option InterpretFrameOptions)
    (hpre : options.bind (·.precomputed) = none)
    (hshape : detectorOutput.rawBoxes.length =
      DETECTION_VALUES_PER_ANCHOR * anchors.length)
    (hlow : ∀ b ∈ decodeDetectionsInternal ops detectorOutput anchors,
      b.score < (mergeDetectionParams (options.bind (·.detectionParams))).scoreThreshold) :
    (interpretFrame ops t0 t1 detectorOutput landmarkOutputsPerHand anchors meta
      options).hands = [] ∧
    (interpretFrame ops t0 t1 detectorOutput landmarkOutputsPerHand anchors meta
      options).interHandRelations = [] ∧
    (interpretFrame ops t0 t1 detectorOutput landmarkOutputsPerHand anchors meta
      options).rawMeta.numDetectionsBeforeNMS = anchors.length := by
  have hmerge := mergeDetectionParams_toOverrides
    (mergeDetectionParams (options.bind (·.detectionParams)))
  have hprep := prepareDetections_of_low_scores ops detectorOutput anchors meta
    (some (mergeDetectionParams (options.bind (·.detectionParams))).toOverrides)
    (by rw [hmerge]; exact hlow)
  rw [interpretFrame]
  simp only [hpre, Option.getD_none, hprep]
  simp only [List.length_nil, Nat.zero_min, Nat.min_zero, List.range_zero, List.map_nil]
  refine ⟨trivial, ?_, ?_⟩
  · rw [inferInterHandRelations]
    simp
  · exact decodeDetectionsInternal_length ops detectorOutput anchors hshape

def witnessMeta : FrameMeta :=
  { frameWidth := 640, frameHeight := 480, modelInputWidth := 192,
    modelInputHeight := 192 }

/-- C3 witness: one anchor, zero score logit (sigmoid modelled at 1/2, below
the default 0.55 threshold), default options. -/
theorem interpretFrame_no_detections_witness :
    (interpretFrame sampleOps 0 0 witnessDetectorOut none witnessAnchors witnessMeta
      none).hands = [] ∧
    (interpretFrame sampleOps 0 0 witnessDetectorOut none witnessAnchors witnessMeta
      none).interHandRelations = [] ∧
    (interpretFrame sampleOps 0 0 witnessDetectorOut none witnessAnchors witnessMeta
      none).rawMeta.numDetectionsBeforeNMS = witnessAnchors.length :=
  interpretFrame_no_detections sampleOps 0 0 witnessDetectorOut none witnessAnchors
    witnessMeta none rfl (by decide) (by decide)

-- ---------------------------------------------------------------------------
-- C5: hand-count invariants of interpretFrame
-- ---------------------------------------------------------------------------

theorem prepareDetections_roi_length (ops : MathOps)
    (detectorOutput : MLRawDetectorOutput) (anchors : List Anchor) (meta : FrameMeta)
    (overrides : Option DetectionParamsOverrides) :
    (prepareDetections ops detectorOutput anchors meta overrides).roiBoxesOnFrame.length =
      (suppressDetections (mergeDetectionParams overrides)
        (decodeDetectionsInternal ops detectorOutput anchors)).length := by
  rw [prepareDetections]
  simp

/-- C5 (amended): without injected precomputed detections, the hand list of
`interpretFrame` has length min(#suppressed detections, #landmark outputs) —
in particular it is empty when `landmarkOutputsPerHand` is null or empty —
every hand carries exactly 21 landmarks, and when `maxHands` is a positive
integer the list has at most `maxHands` entries.  (With `maxHands = 0` a
detection can still produce one hand; see the counterexample.) -/
theorem interpretFrame_hand_count_spec (ops : MathOps) (t0 t1 : ℚ)
    (detectorOutput : MLRawDetectorOutput)
    (landmarkOutputsPerHand : Option (List MLRawLandmarksOutput))
    (anchors : List Anchor) (meta : FrameMeta) (options : Option InterpretFrameOptions)
    (hpre : options.bind (·.precomputed) = none) :
    (interpretFrame ops t0 t1 detectorOutput landmarkOutputsPerHand anchors meta
        options).hands.length =
      min (prepareDetections ops detectorOutput anchors meta
          (some (mergeDetectionParams (options.bind (·.detectionParams))).toOverrides)).roiBoxesOnFrame.length
        (landmarkOutputsPerHand.getD []).length ∧
    (∀ hand ∈ (interpretFrame ops t0 t1 detectorOutput landmarkOutputsPerHand anchors
        meta options).hands, hand.landmarks.length = 21) ∧
    (landmarkOutputsPerHand.getD [] = [] →
      (interpretFrame ops t0 t1 detectorOutput landmarkOutputsPerHand anchors meta
        options).hands = []) ∧
    ((mergeDetectionParams (options.bind (·.detectionParams))).maxHands.den = 1 →
      1 ≤ (mergeDetectionParams (options.bind (·.detectionParams))).maxHands →
      (((interpretFrame ops t0 t1 detectorOutput landmarkOutputsPerHand anchors meta
          options).hands.length : ℚ)) ≤
        (mergeDetectionParams (options.bind (·.detectionParams))).maxHands) := by
  have hlen : (interpretFrame ops t0 t1 detectorOutput landmarkOutputsPerHand anchors
      meta options).hands.length =
      min (prepareDetections ops detectorOutput anchors meta
          (some (mergeDetectionParams
            (options.bind (·.detectionParams))).toOverrides)).roiBoxesOnFrame.length
        (landmarkOutputsPerHand.getD []).length := by
    rw [interpretFrame]
    simp [hpre]
  refine ⟨hlen, ?_, ?_, ?_⟩
  · intro hand hhand
    rw [interpretFrame] at hhand
    simp only [hpre, Option.getD_none, List.mem_map, List.mem_range] at hhand
    obtain ⟨i, -, rfl⟩ := hhand
    simp [mapLandmarksToFrame]
  · intro hempty
    rw [interpretFrame]
    simp [hpre, hempty]
  · intro hden hpos
    rw [hlen]
    have hbound := (suppressDetections_spec
      (mergeDetectionParams (options.bind (·.detectionParams)))
      (decodeDetectionsInternal ops detectorOutput anchors) hden hpos).1
    have hroi := prepareDetections_roi_length ops detectorOutput anchors meta
      (some (mergeDetectionParams (options.bind (·.detectionParams))).toOverrides)
    rw [mergeDetectionParams_toOverrides] at hroi
    rw [← hroi] at hbound
    calc ((min (prepareDetections ops detectorOutput anchors meta
            (some (mergeDetectionParams
              (options.bind (·.detectionParams))).toOverrides)).roiBoxesOnFrame.length
          (landmarkOutputsPerHand.getD []).length : ℕ) : ℚ)
        ≤ ((prepareDetections ops detectorOutput anchors meta
            (some (mergeDetectionParams
              (options.bind (·.detectionParams))).toOverrides)).roiBoxesOnFrame.length : ℚ) := by
          exact_mod_cast Nat.cast_le.2 (Nat.min_le_left _ _)
      _ ≤ (mergeDetectionParams (options.bind (·.detectionParams))).maxHands := hbound

/-- C5 witness: the maxHands bound of the hand-count theorem at a concrete
input with the default parameters (maxHands = 2, a positive integer). -/
theorem interpretFrame_hand_count_spec_witness :
    (((interpretFrame sampleOps 0 0 witnessDetectorOut none witnessAnchors witnessMeta
        none).hands.length : ℚ)) ≤
      (mergeDetectionParams ((none : Option InterpretFrameOptions).bind
        (·.detectionParams))).maxHands :=
  (interpretFrame_hand_count_spec sampleOps 0 0 witnessDetectorOut none witnessAnchors
    witnessMeta none rfl).2.2.2 (by decide) (by decide)

def cexLandmarkOut : MLRawLandmarksOutput :=
  { landmarks := List.replicate 63 0, handedness := Handedness.Left,
    handednessScore := 1 }

def cexOptionsZeroMax : InterpretFrameOptions :=
  { detectionParams := some { scoreThreshold := some 0, maxHands := some 0 } }

/-- C5 counterexample: with a `maxHands = 0` override, one passing detection
and one landmark output still produce one HandState, so the hand list is not
bounded by `maxHands`. -/
theorem interpretFrame_exceeds_zero_maxHands :
    (interpretFrame sampleOps 0 0 witnessDetectorOut (some [cexLandmarkOut])
      witnessAnchors witnessMeta (some cexOptionsZeroMax)).hands.length = 1 ∧
    ¬ (((interpretFrame sampleOps 0 0 witnessDetectorOut (some [cexLandmarkOut])
        witnessAnchors witnessMeta (some cexOptionsZeroMax)).hands.length : ℚ) ≤
      (mergeDetectionParams ((some cexOptionsZeroMax).bind
        (·.detectionParams))).maxHands) := by
  decide

-- ---------------------------------------------------------------------------
-- C7 and C8: landmark mapper and ROI expansion
-- ---------------------------------------------------------------------------

-- ---------------------------------------------------------------------------
-- C7: landmark mapper is a clamped affine map
-- ---------------------------------------------------------------------------

/-- C7: when the ROI satisfies wPx = xMax - xMin and hPx = yMax - yMin, the
landmark mapper clamps each normalized x/y to [-0.5, 1.5], applies the affine
map pixel = roi.min + clamped * roi.size, passes z through unchanged, and in
particular sends (0,0) to (roi.xMin, roi.yMin) and (1,1) to
(roi.xMax, roi.yMax). -/
theorem mapLandmarksToFrame_affine (raw : MLRawLandmarksOutput)
    (roi : DetectionBoxOnFrame)
    (hw : roi.wPx = roi.xMax - roi.xMin) (hh : roi.hPx = roi.yMax - roi.yMin) :
    (∀ i < 21,
      ((mapLandmarksToFrame raw roi).getD i zeroLandmark).x =
        roi.xMin + min (max (raw.landmarks.getD (i * 3) 0) (-0.5)) 1.5 * roi.wPx ∧
      ((mapLandmarksToFrame raw roi).getD i zeroLandmark).y =
        roi.yMin + min (max (raw.landmarks.getD (i * 3 + 1) 0) (-0.5)) 1.5 * roi.hPx ∧
      ((mapLandmarksToFrame raw roi).getD i zeroLandmark).z =
        raw.landmarks.getD (i * 3 + 2) 0) ∧
    (∀ i < 21, raw.landmarks.getD (i * 3) 0 = 0 →
      raw.landmarks.getD (i * 3 + 1) 0 = 0 →
      ((mapLandmarksToFrame raw roi).getD i zeroLandmark).x = roi.xMin ∧
      ((mapLandmarksToFrame raw roi).getD i zeroLandmark).y = roi.yMin) ∧
    (∀ i < 21, raw.landmarks.getD (i * 3) 0 = 1 →
      raw.landmarks.getD (i * 3 + 1) 0 = 1 →
      ((mapLandmarksToFrame raw roi).getD i zeroLandmark).x = roi.xMax ∧
      ((mapLandmarksToFrame raw roi).getD i zeroLandmark).y = roi.yMax) := by
  have hget : ∀ i, i < 21 → (mapLandmarksToFrame raw roi).getD i zeroLandmark =
      { x := roi.xMin + min (max (raw.landmarks.getD (i * 3) 0) (-0.5)) 1.5 * roi.wPx
        y := roi.yMin + min (max (raw.landmarks.getD (i * 3 + 1) 0) (-0.5)) 1.5 * roi.hPx
        z := raw.landmarks.getD (i * 3 + 2) 0 } := by
    intro i hi
    rw [mapLandmarksToFrame, List.getD_eq_getElem?_getD, List.getElem?_map,
      List.getElem?_range hi]
    norm_num
  refine ⟨?_, ?_, ?_⟩
  · intro i hi
    rw [hget i hi]
    exact ⟨rfl, rfl, rfl⟩
  · intro i hi hx hy
    rw [hget i hi, hx, hy]
    constructor
    · show roi.xMin + min (max 0 (-0.5)) 1.5 * roi.wPx = roi.xMin
      norm_num
    · show roi.yMin + min (max 0 (-0.5)) 1.5 * roi.hPx = roi.yMin
      norm_num
  · intro i hi hx hy
    rw [hget i hi, hx, hy]
    constructor
    · show roi.xMin + min (max 1 (-0.5)) 1.5 * roi.wPx = roi.xMax
      rw [hw]
      norm_num
    · show roi.yMin + min (max 1 (-0.5)) 1.5 * roi.hPx = roi.yMax
      rw [hh]
      norm_num

def witnessRoi : DetectionBoxOnFrame :=
  { id := 0, score := 1, cx := 0, cy := 0, w := 0, h := 0, rotation := 0,
    palmKeypoints := [], cxPx := 60, cyPx := 120, wPx := 100, hPx := 200,
    xMin := 10, yMin := 20, xMax := 110, yMax := 220, palmKeypointsPx := [] }

def witnessRawLandmarks : MLRawLandmarksOutput :=
  { landmarks := [0, 0, 5] ++ [1, 1, 7] ++ List.replicate 57 0,
    handedness := Handedness.Left, handednessScore := 1 }

/-- C7 witness: landmark 0 at normalized (0,0) lands on (xMin, yMin) and
landmark 1 at normalized (1,1) lands on (xMax, yMax) for a concrete ROI. -/
theorem mapLandmarksToFrame_affine_witness :
    (((mapLandmarksToFrame witnessRawLandmarks witnessRoi).getD 0 zeroLandmark).x =
        witnessRoi.xMin ∧
      ((mapLandmarksToFrame witnessRawLandmarks witnessRoi).getD 0 zeroLandmark).y =
        witnessRoi.yMin) ∧
    (((mapLandmarksToFrame witnessRawLandmarks witnessRoi).getD 1 zeroLandmark).x =
        witnessRoi.xMax ∧
      ((mapLandmarksToFrame witnessRawLandmarks witnessRoi).getD 1 zeroLandmark).y =
        witnessRoi.yMax) :=
  ⟨(mapLandmarksToFrame_affine witnessRawLandmarks witnessRoi (by decide)
      (by decide)).2.1 0 (by decide) (by decide) (by decide),
   (mapLandmarksToFrame_affine witnessRawLandmarks witnessRoi (by decide)
      (by decide)).2.2 1 (by decide) (by decide) (by decide)⟩

-- ---------------------------------------------------------------------------
-- C8: ROI expansion produces a clamped square
-- ---------------------------------------------------------------------------

theorem clamp_lower (v b : ℚ) (hb : 0 ≤ b) : 0 ≤ min (max v 0) b :=
  le_min (le_max_right v 0) hb

theorem clamp_mono (v w b : ℚ) (h : v ≤ w) :
    min (max v 0) b ≤ min (max w 0) b :=
  min_le_min (max_le_max h le_rfl) le_rfl

theorem clamp_id (v b : ℚ) (h0 : 0 ≤ v) (hb : v ≤ b) : min (max v 0) b = v := by
  rw [max_eq_left h0, min_eq_left hb]

/-- C8: the expanded landmark ROI is the square of side
max(wPx, hPx)·expansion centered on the box center, with each corner clamped
to the pixel range [0, frame − 1]: its extent always stays inside the frame,
its stored wPx/hPx equal its extent, and whenever the unclamped square already
fits in the frame it is exactly that square (side and center preserved). -/
theorem expandRoiForLandmarks_spec (box : DetectionBoxOnFrame) (meta : FrameMeta)
    (expansion : ℚ) (hW : 1 ≤ meta.frameWidth) (hH : 1 ≤ meta.frameHeight)
    (hsize : 0 ≤ max box.wPx box.hPx * expansion) :
    (0 ≤ (expandRoiForLandmarks box meta expansion).xMin ∧
      (expandRoiForLandmarks box meta expansion).xMin ≤
        (expandRoiForLandmarks box meta expansion).xMax ∧
      (expandRoiForLandmarks box meta expansion).xMax ≤ meta.frameWidth - 1 ∧
      0 ≤ (expandRoiForLandmarks box meta expansion).yMin ∧
      (expandRoiForLandmarks box meta expansion).yMin ≤
        (expandRoiForLandmarks box meta expansion).yMax ∧
      (expandRoiForLandmarks box meta expansion).yMax ≤ meta.frameHeight - 1) ∧
    ((expandRoiForLandmarks box meta expansion).wPx =
        (expandRoiForLandmarks box meta expansion).xMax -
          (expandRoiForLandmarks box meta expansion).xMin ∧
      (expandRoiForLandmarks box meta expansion).hPx =
        (expandRoiForLandmarks box meta expansion).yMax -
          (expandRoiForLandmarks box meta expansion).yMin) ∧
    (0 ≤ box.cxPx - max box.wPx box.hPx * expansion / 2 →
      box.cxPx + max box.wPx box.hPx * expansion / 2 ≤ meta.frameWidth - 1 →
      (expandRoiForLandmarks box meta expansion).xMax -
          (expandRoiForLandmarks box meta expansion).xMin =
        max box.wPx box.hPx * expansion ∧
      (expandRoiForLandmarks box meta expansion).xMin +
          (expandRoiForLandmarks box meta expansion).xMax = 2 * box.cxPx) ∧
    (0 ≤ box.cyPx - max box.wPx box.hPx * expansion / 2 →
      box.cyPx + max box.wPx box.hPx * expansion / 2 ≤ meta.frameHeight - 1 →
      (expandRoiForLandmarks box meta expansion).yMax -
          (expandRoiForLandmarks box meta expansion).yMin =
        max box.wPx box.hPx * expansion ∧
      (expandRoiForLandmarks box meta expansion).yMin +
          (expandRoiForLandmarks box meta expansion).yMax = 2 * box.cyPx) := by
  simp only [expandRoiForLandmarks]
  have hhalf : 0 ≤ max box.wPx box.hPx * expansion / 2 := by linarith
  refine ⟨⟨?_, ?_, ?_, ?_, ?_, ?_⟩, by trivial, ?_, ?_⟩
  · exact clamp_lower _ _ (by linarith)
  · exact clamp_mono _ _ _ (by linarith)
  · exact min_le_right _ _
  · exact clamp_lower _ _ (by linarith)
  · exact clamp_mono _ _ _ (by linarith)
  · exact min_le_right _ _
  · intro h1 h2
    rw [clamp_id _ _ h1 (by linarith), clamp_id _ _ (by linarith) h2]
    constructor <;> ring
  · intro h1 h2
    rw [clamp_id _ _ h1 (by linarith), clamp_id _ _ (by linarith) h2]
    constructor <;> ring

def witnessBoxOnFrame : DetectionBoxOnFrame :=
  { id := 0, score := 1, cx := 0, cy := 0, w := 0, h := 0, rotation := 0,
    palmKeypoints := [], cxPx := 300, cyPx := 200, wPx := 100, hPx := 80,
    xMin := 250, yMin := 160, xMax := 350, yMax := 240, palmKeypointsPx := [] }

/-- C8 witness: the ROI-expansion theorem at a concrete box (100 x 80 pixels
at (300, 200)) in a 640 x 480 frame with the default 1.25 expansion; here the
square fits, so the exact-square case applies. -/
theorem expandRoiForLandmarks_spec_witness :
    (0 ≤ (expandRoiForLandmarks witnessBoxOnFrame witnessMeta 1.25).xMin ∧
      (expandRoiForLandmarks witnessBoxOnFrame witnessMeta 1.25).xMin ≤
        (expandRoiForLandmarks witnessBoxOnFrame witnessMeta 1.25).xMax ∧
      (expandRoiForLandmarks witnessBoxOnFrame witnessMeta 1.25).xMax ≤
        witnessMeta.frameWidth - 1 ∧
      0 ≤ (expandRoiForLandmarks witnessBoxOnFrame witnessMeta 1.25).yMin ∧
      (expandRoiForLandmarks witnessBoxOnFrame witnessMeta 1.25).yMin ≤
        (expandRoiForLandmarks witnessBoxOnFrame witnessMeta 1.25).yMax ∧
      (expandRoiForLandmarks witnessBoxOnFrame witnessMeta 1.25).yMax ≤
        witnessMeta.frameHeight - 1) ∧
    ((expandRoiForLandmarks witnessBoxOnFrame witnessMeta 1.25).xMax -
        (expandRoiForLandmarks witnessBoxOnFrame witnessMeta 1.25).xMin =
      max witnessBoxOnFrame.wPx witnessBoxOnFrame.hPx * 1.25 ∧
      (expandRoiForLandmarks witnessBoxOnFrame witnessMeta 1.25).xMin +
        (expandRoiForLandmarks witnessBoxOnFrame witnessMeta 1.25).xMax =
      2 * witnessBoxOnFrame.cxPx) :=
  ⟨(expandRoiForLandmarks_spec witnessBoxOnFrame witnessMeta 1.25 (by decide)
      (by decide) (by decide)).1,
   (expandRoiForLandmarks_spec witnessBoxOnFrame witnessMeta 1.25 (by decide)
      (by decide) (by decide)).2.2.1 (by decide) (by decide)⟩

-- ---------------------------------------------------------------------------
-- C9: inter-hand relation at five box sizes
-- ---------------------------------------------------------------------------

/-- C9 (amended): for two hands of the same handedness whose center distance
equals 5 x their average box size, the relation is Unknown with confidence 0
provided the average size is nonnegative and the horizontal center offset is
at least 0.5 x the average size; when the hands are (near-)vertically
aligned the Crossing branch fires instead (see the counterexample). -/
theorem inferInterHandRelations_far_same_handed (ops : MathOps)
    (handA handB : HandState)
    (hsame : handA.handedness = handB.handedness)
    (havg : 0 ≤ (handA.spatial.size.w + handB.spatial.size.w) / 2)
    (hdist : ops.hypot2 (handA.spatial.center.x - handB.spatial.center.x)
        (handA.spatial.center.y - handB.spatial.center.y) =
      5 * ((handA.spatial.size.w + handB.spatial.size.w) / 2))
    (hdx : (handA.spatial.size.w + handB.spatial.size.w) / 2 * 0.5 ≤
      |handA.spatial.center.x - handB.spatial.center.x|) :
    inferInterHandRelations ops [handA, handB] =
      [{ handIdA := handA.id, handIdB := handB.id,
         type := InterHandRelationType.Unknown,
         distancePx := 5 * ((handA.spatial.size.w + handB.spatial.size.w) / 2),
         confidence := 0 }] := by
  have hc1 : ¬ (handA.handedness ≠ handB.handedness ∧
      |handA.spatial.center.y - handB.spatial.center.y| <
        (handA.spatial.size.w + handB.spatial.size.w) / 2 * 0.4 ∧
      ops.hypot2 (handA.spatial.center.x - handB.spatial.center.x)
          (handA.spatial.center.y - handB.spatial.center.y) <
        (handA.spatial.size.w + handB.spatial.size.w) / 2 * 1.6) :=
    fun h => h.1 hsame
  have hc2 : ¬ (ops.hypot2 (handA.spatial.center.x - handB.spatial.center.x)
      (handA.spatial.center.y - handB.spatial.center.y) <
        (handA.spatial.size.w + handB.spatial.size.w) / 2 * 1.2) := by
    rw [hdist]
    intro h
    nlinarith
  have hc3 : ¬ (|handA.spatial.center.x - handB.spatial.center.x| <
      (handA.spatial.size.w + handB.spatial.size.w) / 2 * 0.5) := not_lt.2 hdx
  rw [inferInterHandRelations, if_neg (by norm_num)]
  have hr2 : List.range (2 : ℕ) = [0, 1] := by decide
  have hr11 : List.range' 1 1 = [1] := by decide
  have hr20 : List.range' 2 0 = [] := by decide
  norm_num [hr2, hr11, hr20, List.flatMap_cons, List.flatMap_nil,
    List.getD_cons_zero, List.getD_cons_succ]
  rw [relationForPair]
  simp only [if_neg hc1, if_neg hc2, if_neg hc3]
  rw [hdist]

/-- Hand at a given center with a 100-pixel-wide box, same handedness for the
pair; only id, handedness, and spatial data matter to the relation logic. -/
def mkRelationHand (name : String) (cx cy : ℚ) : HandState :=
  { emptyHandState with
    id := name
    handedness := Handedness.Left
    spatial :=
      { center := { x := cx, y := cy }, normalizedCenter := { x := 0, y := 0 }
        size := { w := 100, h := 100 }, depthApprox := 0, isNearCenter := false } }

/-- C9 witness: two same-handed hands 500 px apart horizontally (5 x the
average box size 100) are classified Unknown with confidence 0.  With one
displacement component zero, `sampleOps.hypot2` agrees with the Euclidean
distance. -/
theorem inferInterHandRelations_far_same_handed_witness :
    inferInterHandRelations sampleOps
      [mkRelationHand "A" 100 0, mkRelationHand "B" 600 0] =
      [{ handIdA := (mkRelationHand "A" 100 0).id,
         handIdB := (mkRelationHand "B" 600 0).id,
         type := InterHandRelationType.Unknown,
         distancePx := 5 * (((mkRelationHand "A" 100 0).spatial.size.w +
           (mkRelationHand "B" 600 0).spatial.size.w) / 2),
         confidence := 0 }] :=
  inferInterHandRelations_far_same_handed sampleOps
    (mkRelationHand "A" 100 0) (mkRelationHand "B" 600 0)
    (by decide) (by decide) (by decide) (by decide)

/-- C9 counterexample: the claim as stated is false — two same-handed hands
whose centers are 500 px apart vertically (again 5 x the average box size
100, with the Euclidean distance exact since dx = 0) fall into the Crossing
branch (|dx| < 0.5 x avgSize), yielding confidence 0.4, not Unknown with 0. -/
theorem inferInterHandRelations_crossing_at_five_sizes :
    (mkRelationHand "A" 100 0).handedness = (mkRelationHand "B" 100 500).handedness ∧
    sampleOps.hypot2
        ((mkRelationHand "A" 100 0).spatial.center.x -
          (mkRelationHand "B" 100 500).spatial.center.x)
        ((mkRelationHand "A" 100 0).spatial.center.y -
          (mkRelationHand "B" 100 500).spatial.center.y) =
      5 * (((mkRelationHand "A" 100 0).spatial.size.w +
        (mkRelationHand "B" 100 500).spatial.size.w) / 2) ∧
    (inferInterHandRelations sampleOps
        [mkRelationHand "A" 100 0, mkRelationHand "B" 100 500]).map (·.type) =
      [InterHandRelationType.Crossing] ∧
    (inferInterHandRelations sampleOps
        [mkRelationHand "A" 100 0, mkRelationHand "B" 100 500]).map (·.confidence) =
      [0.4] := by
  decide

-- ---------------------------------------------------------------------------
-- C10: angle range and finger-state safety
-- ---------------------------------------------------------------------------

/-- C10: the angle passed onward by `angleBetween` is the arc-cosine of a
value clamped to [-1, 1], so assuming only that `acos` maps [-1, 1] into
[0, pi] the result is always in [0, pi] (and it is 0 outright when either
argument's magnitude is below epsilon); consequently the finger classifier
never returns Unknown — its non-finite branch is unreachable (every rational,
i.e. every finite double, passes `isFinite`) — and a finger whose mcp, pip
and tip coincide (zero-length segment vectors) is classified Open. -/
theorem computeHandPose_no_unknown (ops : MathOps)
    (hac : ∀ x : ℚ, -1 ≤ x → x ≤ 1 → 0 ≤ ops.acos x ∧ ops.acos x ≤ ops.pi)
    (hpi : 0 ≤ ops.pi)
    (h0 : ops.hypot3 0 0 0 < EPSILON) :
    (∀ a b : Vec3, 0 ≤ angleBetween ops a b ∧ angleBetween ops a b ≤ ops.pi) ∧
    (∀ a b : Vec3,
      ops.hypot3 a.x a.y a.z < EPSILON ∨ ops.hypot3 b.x b.y b.z < EPSILON →
      angleBetween ops a b = 0) ∧
    (∀ (landmarks : List Landmark3D) (finger : FingerName),
      fingerStateFor ops landmarks finger ≠ FingerState.Unknown) ∧
    (∀ (landmarks : List Landmark3D) (finger : FingerName),
      landmarks.getD (FINGER_INDICES finger).1 zeroLandmark =
        landmarks.getD (FINGER_INDICES finger).2.1 zeroLandmark →
      landmarks.getD (FINGER_INDICES finger).2.1 zeroLandmark =
        landmarks.getD (FINGER_INDICES finger).2.2.2 zeroLandmark →
      fingerStateFor ops landmarks finger = FingerState.Open) ∧
    (∀ (landmarks : List Landmark3D) (finger : FingerName),
      (computeHandPose ops landmarks).fingers.get finger ≠ FingerState.Unknown) := by
  have hrange : ∀ a b : Vec3, 0 ≤ angleBetween ops a b ∧ angleBetween ops a b ≤ ops.pi := by
    intro a b
    rw [angleBetween]
    split
    · exact ⟨le_refl 0, hpi⟩
    · exact hac _ (le_min (le_max_right _ _) (by norm_num)) (min_le_right _ _)
  have hnever : ∀ (landmarks : List Landmark3D) (finger : FingerName),
      fingerStateFor ops landmarks finger ≠ FingerState.Unknown := by
    intro landmarks finger
    rw [fingerStateFor]
    simp only [isFiniteNum, Bool.not_true, Bool.false_eq_true, if_false]
    split_ifs <;> simp
  refine ⟨hrange, ?_, hnever, ?_, ?_⟩
  · intro a b h
    rw [angleBetween, if_pos h]
  · intro landmarks finger h1 h2
    have hsub : ∀ v : Landmark3D, subtractVec v v = ({ x := 0, y := 0, z := 0 } : Vec3) := by
      intro v
      simp [subtractVec]
    have hang : angleBetween ops { x := 0, y := 0, z := 0 } { x := 0, y := 0, z := 0 } = 0 := by
      rw [angleBetween, if_pos (Or.inl h0)]
    rw [fingerStateFor]
    simp only [h1, h2, hsub, hang, isFiniteNum, Bool.not_true, Bool.false_eq_true, if_false,
      zero_mul, zero_div]
    norm_num
  · intro landmarks finger
    cases finger <;> exact hnever landmarks _

/-- C10 witness: the angle-range and Open-classification parts at concrete
inputs (all-coincident landmarks give degenerate segment vectors). -/
theorem computeHandPose_no_unknown_witness :
    (0 ≤ angleBetween sampleOps { x := 1, y := 0, z := 0 } { x := 0, y := 1, z := 0 } ∧
      angleBetween sampleOps { x := 1, y := 0, z := 0 } { x := 0, y := 1, z := 0 } ≤
        sampleOps.pi) ∧
    fingerStateFor sampleOps (List.replicate 21 zeroLandmark) FingerName.Index =
      FingerState.Open ∧
    (computeHandPose sampleOps (List.replicate 21 zeroLandmark)).fingers.get
      FingerName.Index ≠ FingerState.Unknown :=
  ⟨(computeHandPose_no_unknown sampleOps (fun _ _ _ => ⟨le_rfl, le_rfl⟩) le_rfl
      (by decide)).1 _ _,
   (computeHandPose_no_unknown sampleOps (fun _ _ _ => ⟨le_rfl, le_rfl⟩) le_rfl
      (by decide)).2.2.2.1 (List.replicate 21 zeroLandmark) FingerName.Index
      (by decide) (by decide),
   (computeHandPose_no_unknown sampleOps (fun _ _ _ => ⟨le_rfl, le_rfl⟩) le_rfl
      (by decide)).2.2.2.2 (List.replicate 21 zeroLandmark) FingerName.Index⟩

-- ---------------------------------------------------------------------------
-- C6: temporal stabilizer
-- ---------------------------------------------------------------------------

theorem hasSignificantMovement3D_self (ops : MathOps) (L : List Landmark3D) (thr : ℚ)
    (hH : ops.hypot2 0 0 = 0) (hthr : 0 ≤ thr) :
    hasSignificantMovement3D ops L L thr = false := by
  rw [hasSignificantMovement3D, List.any_eq_false]
  intro i hi
  rw [List.mem_range] at hi
  have hd : L.getD i zeroLandmark = L[i] := by
    rw [List.getD_eq_getElem?_getD, List.getElem?_eq_getElem hi]
    rfl
  have hget : L.get? i = some L[i] := by
    rw [List.get?_eq_getElem?, List.getElem?_eq_getElem hi]
  rw [hget, hd]
  simp only [sub_self, hH, decide_eq_true_eq]
  exact not_lt.2 hthr

theorem filterMap_getQ_replicate (n : ℕ) (L : List Landmark3D) (i : ℕ)
    (hi : i < L.length) :
    (List.replicate n L).filterMap (fun f => f.get? i) = List.replicate n L[i] := by
  induction n with
  | zero => simp
  | succ k ih =>
    simp [List.replicate_succ, List.filterMap_cons, List.get?_eq_getElem?,
      List.getElem?_eq_getElem hi, ih]

theorem averageLandmarks_const (n : ℕ) (hn : 0 < n) (L : List Landmark3D) :
    averageLandmarks (List.replicate n L) L = L := by
  apply List.ext_getElem
  · simp [averageLandmarks]
  · intro i h1 h2
    simp only [averageLandmarks, List.getElem_map, List.getElem_range]
    rw [filterMap_getQ_replicate n L i h2]
    have hne : ¬ ((List.replicate n L[i]).length = 0) := by
      simp [hn.ne']
    rw [if_neg hne]
    have hxs : ((List.replicate n L[i]).map (·.x)).sum = (n : ℚ) * L[i].x := by
      rw [List.map_replicate, List.sum_replicate, nsmul_eq_mul]
    have hys : ((List.replicate n L[i]).map (·.y)).sum = (n : ℚ) * L[i].y := by
      rw [List.map_replicate, List.sum_replicate, nsmul_eq_mul]
    have hzs : ((List.replicate n L[i]).map (·.z)).sum = (n : ℚ) * L[i].z := by
      rw [List.map_replicate, List.sum_replicate, nsmul_eq_mul]
    rw [List.length_replicate, hxs, hys, hzs]
    have hn0 : ((n : ℚ)) ≠ 0 := Nat.cast_ne_zero.2 hn.ne'
    field_simp

theorem smoothHandStep_empty (ops : MathOps) (thr : ℚ) (L : List Landmark3D) :
    smoothHandStep ops thr APP_MAX_HISTORY_SIZE [] L = (L, [L]) := by
  rw [smoothHandStep]
  simp [APP_MAX_HISTORY_SIZE]

theorem smoothHandStep_same (ops : MathOps) (thr : ℚ) (L : List Landmark3D)
    (k : ℕ) (hk1 : 1 ≤ k) (hk3 : k ≤ 2)
    (hH : ops.hypot2 0 0 = 0) (hthr : 0 ≤ thr) :
    smoothHandStep ops thr APP_MAX_HISTORY_SIZE (List.replicate k L) L =
      (L, List.replicate (k + 1) L) := by
  have h1 : (List.replicate k L).length - 1 < (List.replicate k L).length := by
    rw [List.length_replicate]
    omega
  have hlast : (List.replicate k L).getD ((List.replicate k L).length - 1) [] = L := by
    rw [List.getD_eq_getElem?_getD, List.getElem?_eq_getElem h1, List.getElem_replicate]
    rfl
  rw [smoothHandStep, hlast]
  have hc1 : ¬ (0 < (List.replicate k L).length ∧
      hasSignificantMovement3D ops L L thr = true) := by
    simp [hasSignificantMovement3D_self ops L thr hH hthr]
  rw [if_neg hc1]
  have hc2 : ¬ (APP_MAX_HISTORY_SIZE < (List.replicate k L ++ [L]).length) := by
    simp only [List.length_append, List.length_replicate, List.length_singleton,
      APP_MAX_HISTORY_SIZE]
    omega
  rw [if_neg hc2]
  have hc3 : ¬ ((List.replicate k L ++ [L]).length < 2) := by
    simp only [List.length_append, List.length_replicate, List.length_singleton]
    omega
  rw [if_neg hc3]
  rw [← List.replicate_succ']
  rw [averageLandmarks_const (k + 1) (by omega) L]

theorem smoothHandStep_reset (ops : MathOps) (thr : ℚ) (cur : List Landmark3D)
    (hist : List (List Landmark3D)) (hne : hist ≠ [])
    (hmove : hasSignificantMovement3D ops cur
      (hist.getD (hist.length - 1) []) thr = true) :
    smoothHandStep ops thr APP_MAX_HISTORY_SIZE hist cur = (cur, [cur]) := by
  rw [smoothHandStep]
  have hcr : 0 < hist.length ∧ hasSignificantMovement3D ops cur
      (hist.getD (hist.length - 1) []) thr = true :=
    ⟨List.length_pos.2 hne, hmove⟩
  rw [if_pos hcr]
  have hc2 : ¬ (APP_MAX_HISTORY_SIZE <
      (([] : List (List Landmark3D)) ++ [cur]).length) := by
    simp [APP_MAX_HISTORY_SIZE]
  rw [if_neg hc2]
  rw [if_pos (show (([] : List (List Landmark3D)) ++ [cur]).length < 2 by simp)]
  rw [List.nil_append]

/-- C6: one tracked identity of the stabilizer.  Feeding the same 21-landmark
set for 3 consecutive frames yields the raw input back at every step (the
mean of identical frames is the frame itself); and whenever some landmark
moved more than the movement threshold (8% of the smaller frame dimension)
since the last stored frame, the history is discarded and the output is the
raw current landmarks with a fresh single-frame history. -/
theorem temporalStabilizer_spec (ops : MathOps) (frameW frameH previewSize : ℚ)
    (L cur : List Landmark3D) (hist : List (List Landmark3D))
    (hH : ops.hypot2 0 0 = 0)
    (hthr : 0 ≤ movementThresholdOf frameW frameH previewSize)
    (hne : hist ≠ [])
    (hmove : hasSignificantMovement3D ops cur (hist.getD (hist.length - 1) [])
      (movementThresholdOf frameW frameH previewSize) = true) :
    (smoothHandStep ops (movementThresholdOf frameW frameH previewSize)
      APP_MAX_HISTORY_SIZE [] L).1 = L ∧
    (smoothHandStep ops (movementThresholdOf frameW frameH previewSize)
      APP_MAX_HISTORY_SIZE
      (smoothHandStep ops (movementThresholdOf frameW frameH previewSize)
        APP_MAX_HISTORY_SIZE [] L).2 L).1 = L ∧
    (smoothHandStep ops (movementThresholdOf frameW frameH previewSize)
      APP_MAX_HISTORY_SIZE
      (smoothHandStep ops (movementThresholdOf frameW frameH previewSize)
        APP_MAX_HISTORY_SIZE
        (smoothHandStep ops (movementThresholdOf frameW frameH previewSize)
          APP_MAX_HISTORY_SIZE [] L).2 L).2 L).1 = L ∧
    smoothHandStep ops (movementThresholdOf frameW frameH previewSize)
      APP_MAX_HISTORY_SIZE hist cur = (cur, [cur]) := by
  have e1 := smoothHandStep_empty ops
    (movementThresholdOf frameW frameH previewSize) L
  have e2 := smoothHandStep_same ops
    (movementThresholdOf frameW frameH previewSize) L 1 le_rfl (by omega) hH hthr
  rw [List.replicate_one] at e2
  have e3 := smoothHandStep_same ops
    (movementThresholdOf frameW frameH previewSize) L 2 (by omega) le_rfl hH hthr
  refine ⟨?_, ?_, ?_, smoothHandStep_reset ops _ cur hist hne hmove⟩
  · rw [e1]
  · rw [e1]
    dsimp only
    rw [e2]
  · rw [e1]
    dsimp only
    rw [e2]
    dsimp only
    rw [e3]

def witnessStableLandmarks : List Landmark3D := List.replicate 21 zeroLandmark

/-- Current landmarks whose first point jumped 100 px horizontally. -/
def witnessJumpLandmarks : List Landmark3D :=
  { x := 100, y := 0, z := 0 } :: List.replicate 20 zeroLandmark

/-- C6 witness: the stabilizer theorem for a 640 x 480 frame (movement
threshold 38.4 px): three identical frames reproduce the raw landmarks, and a
100 px jump (its displacement exact under `sampleOps.hypot2` since the y
component is 0) resets the history to the raw current frame. -/
theorem temporalStabilizer_spec_witness :
    (smoothHandStep sampleOps (movementThresholdOf 640 480 0)
      APP_MAX_HISTORY_SIZE [] witnessStableLandmarks).1 = witnessStableLandmarks ∧
    (smoothHandStep sampleOps (movementThresholdOf 640 480 0)
      APP_MAX_HISTORY_SIZE
      (smoothHandStep sampleOps (movementThresholdOf 640 480 0)
        APP_MAX_HISTORY_SIZE [] witnessStableLandmarks).2
      witnessStableLandmarks).1 = witnessStableLandmarks ∧
    (smoothHandStep sampleOps (movementThresholdOf 640 480 0)
      APP_MAX_HISTORY_SIZE
      (smoothHandStep sampleOps (movementThresholdOf 640 480 0)
        APP_MAX_HISTORY_SIZE
        (smoothHandStep sampleOps (movementThresholdOf 640 480 0)
          APP_MAX_HISTORY_SIZE [] witnessStableLandmarks).2
        witnessStableLandmarks).2 witnessStableLandmarks).1 = witnessStableLandmarks ∧
    smoothHandStep sampleOps (movementThresholdOf 640 480 0) APP_MAX_HISTORY_SIZE
      [witnessStableLandmarks] witnessJumpLandmarks =
      (witnessJumpLandmarks, [witnessJumpLandmarks]) :=
  temporalStabilizer_spec sampleOps 640 480 0 witnessStableLandmarks
    witnessJumpLandmarks [witnessStableLandmarks] (by decide) (by decide)
    (by decide) (by decide)
